import Mathlib

/-!
# Verification of the `mapbox-gl-circle` interactive circle model

A shallow embedding of the `MapboxCircle` class (TypeScript implementation in
`lib/main.ts`, together with the legacy JavaScript implementation in
`lib/main.js` where a claim cites it) and proofs about its radius/center
editing state machine, event emission, geometry recomputation policy,
polygon step-count formula, listener suspend/resume broadcast, and
attach lifecycle.

Numbers are modelled as exact rationals (`ℚ`): the JavaScript source only
uses `Math.round`, `Math.trunc`, `Math.sqrt`, `min`/`max`, comparisons and
the bitwise `^`/`|` operators on values well inside the exactly-representable
double range, so the embedding evaluates the source expressions under
exact-real semantics.  External collaborators (the Mapbox map, the turf
geodesy library) are modelled at their call boundary: a `turf.circle` /
`turf.destination` result is represented by the tuple of arguments the code
passes to it, and map pointer positions / distances enter as free inputs.
-/

namespace MapboxGlCircle

/-- JavaScript `Math.round` on an exact rational: round half towards
positive infinity, i.e. `⌊q + 1/2⌋`. -/
def jsRound (q : ℚ) : ℤ := ⌊q + 1/2⌋

/-- JavaScript `Math.trunc` on an exact rational: round towards zero. -/
def jsTrunc (q : ℚ) : ℤ := if q < 0 then -⌊-q⌋ else ⌊q⌋

/-- JavaScript `ToInt32` conversion applied to an already-truncated integer:
wrap modulo `2^32` into the signed range `[-2^31, 2^31)`. -/
def jsToInt32 (n : ℤ) : ℤ :=
  let m := n % 4294967296
  if m < 2147483648 then m else m - 4294967296

/-- Bitwise XOR with `2` on a two's-complement 32-bit value: flips bit 1,
so it adds `2` when bit 1 is clear (`v % 4 ∈ {0, 1}`) and subtracts `2`
when bit 1 is set (`v % 4 ∈ {2, 3}`). -/
def jsXor2 (v : ℤ) : ℤ := if v % 4 ≤ 1 then v + 2 else v - 2

/-- `⌊√q⌋` for a nonnegative rational `q` (used to evaluate
`Math.trunc(Math.sqrt n * zoom)` exactly: for `n, zoom ≥ 0` this equals
`⌊√(n · zoom²)⌋`). -/
def ratSqrtFloor (q : ℚ) : ℕ := Nat.sqrt ⌊q⌋.toNat

/-- The subset of `MapboxCircle` constructor options the verified core
reads: `editable`, `minRadius`, `maxRadius`, `refineStroke`
(`lib/main.ts`, `Options` interface and constructor defaults). -/
structure Options where
  editable : Bool
  minRadius : ℚ
  maxRadius : ℚ
  refineStroke : Bool
  deriving Repr, DecidableEq

/-- Constructor defaults from `lib/main.ts` (`editable: false`,
`minRadius: 10`, `maxRadius: 1.1e6`, `refineStroke: false`). -/
def defaultOptions : Options :=
  { editable := false, minRadius := 10, maxRadius := 1100000, refineStroke := false }

/-- `Math.min(Math.max(minRadius, r), maxRadius)` — the clamping applied by
the `radius` property setter (`lib/main.ts` line 443/445). -/
def clampRadius (opts : Options) (r : ℚ) : ℚ :=
  min (max opts.minRadius r) opts.maxRadius

/-- A `turf.circle(center, radius, {steps, ...})` invocation, recorded by
its arguments: the geodesy library is an external collaborator, so the
polygon it returns is represented by what the code asked it to compute. -/
structure TurfCircleCall where
  center : ℚ × ℚ
  radius : ℚ
  steps : ℤ
  deriving Repr, DecidableEq

/-- A `turf.destination(center, radius, bearing, {units: 'meters'})`
invocation, recorded by its arguments. -/
structure TurfDestinationCall where
  center : ℚ × ℚ
  radius : ℚ
  bearing : ℚ
  deriving Repr, DecidableEq

/-- A mutation queued on the one-shot `'rendered'` listener when
`setCenter`/`setRadius` is called before the circle is attached
(`lib/main.ts` lines 375 and 404: `this.on('rendered', applyUpdate, true)`).
The `setRadius` closure captures the already-rounded radius. -/
inductive PendingMutation where
  | setCenterP (pos : ℚ × ℚ)
  | setRadiusP (newRadius : ℤ)
  deriving Repr, DecidableEq

/-- Public events observable on the circle's event emitter that the claims
talk about. -/
inductive CircleEvent where
  | centerchanged
  | radiuschanged
  deriving Repr, DecidableEq

/-- Which kind of handle a suspend/resume broadcast concerns
(the `'center'` / `'radius'` string argument of
`suspendHandleListeners`/`resumeHandleListeners`). -/
inductive HandleKind where
  | center
  | radius
  deriving Repr, DecidableEq

/-- The mutable state of one `MapboxCircle` instance (`lib/main.ts`,
fields initialised in the constructor, lines 84–156).  Listener-binding
booleans stand for "the `mouseenter`/`mousedown`/`mouseleave` listeners of
this handle layer are currently registered on the map". -/
structure CircleState where
  instanceId : ℕ
  lastCenterLngLat : ℚ × ℚ
  editCenterLngLat : ℚ × ℚ
  currentCenterLngLat : ℚ × ℚ
  lastRadius : ℚ
  editRadius : ℚ
  currentRadius : ℚ
  options : Options
  zoom : Option ℚ
  circle : Option TurfCircleCall
  handles : Option (List TurfDestinationCall)
  centerDragActive : Bool
  radiusDragActive : Bool
  attachedMap : Option ℕ
  pendingRendered : List PendingMutation
  centerHandleListenersBound : Bool
  radiusHandleListenersBound : Bool
  changedListenersBound : Bool
  broadcastBound : Bool
  deriving Repr, DecidableEq

namespace CircleState

/-- The `center` property getter (`lib/main.ts` line 436–438):
edit value while a center-drag is active, committed value otherwise. -/
def activeCenter (st : CircleState) : ℚ × ℚ :=
  if st.centerDragActive then st.editCenterLngLat else st.currentCenterLngLat

/-- The `radius` property getter (`lib/main.ts` line 452–454). -/
def activeRadius (st : CircleState) : ℚ :=
  if st.radiusDragActive then st.editRadius else st.currentRadius

end CircleState

/-- `zoom` normalisation in `updateCircle` (`lib/main.ts` line 590):
`!this.zoom || this.zoom <= 0.1 ? 0.1 : this.zoom`, with `undefined`
modelled as `none`. -/
def clampZoom (z : Option ℚ) : ℚ :=
  match z with
  | none => 1/10
  | some z => if z ≤ 1/10 then 1/10 else z

/-- The polygon step-count expression of `updateCircle`
(`lib/main.ts` line 591):
`refineStroke ? Math.max((Math.sqrt(Math.trunc(radius * 0.25)) * zoom) ^ 2, 64) : 64`.
The `^` is JavaScript's bitwise XOR on `ToInt32` operands, not
exponentiation.  `Math.sqrt` of a negative truncation yields `NaN`, and
`ToInt32(NaN) = 0`; for a nonnegative truncation `n` the exact value
`ToInt32(√n · zoom)` is `⌊√(n · zoom²)⌋` wrapped to 32 bits, since the
clamped zoom is positive. -/
def stepsFormula (radius : ℚ) (zoomOpt : Option ℚ) (refine : Bool) : ℤ :=
  let zoom := clampZoom zoomOpt
  if refine then
    let n := jsTrunc (radius * (1/4))
    let inner : ℤ := if n < 0 then 0 else (ratSqrtFloor ((n : ℚ) * zoom * zoom) : ℤ)
    max (jsXor2 (jsToInt32 inner)) 64
  else 64

/-- The four cardinal `turf.destination` calls of `updateCircle`
(`lib/main.ts` lines 598–603), bearings 0, 90, 180, −90. -/
def handleCalls (center : ℚ × ℚ) (radius : ℚ) : List TurfDestinationCall :=
  [⟨center, radius, 0⟩, ⟨center, radius, 90⟩, ⟨center, radius, 180⟩, ⟨center, radius, -90⟩]

/-- `updateCircle` (`lib/main.ts` lines 587–624): recompute the polygon —
unless a center-drag is active and the active radius is below 10000 — and,
when editable, the four handle points, all from the *active*
(edit-if-dragging-else-committed) center and radius. -/
def updateCircle (st : CircleState) : CircleState :=
  let center := st.activeCenter
  let radius := st.activeRadius
  let steps := stepsFormula radius st.zoom st.options.refineStroke
  let circle' :=
    if ¬(st.centerDragActive = true ∧ radius < 10000) then
      some (⟨center, radius, steps⟩ : TurfCircleCall)
    else st.circle
  let handles' :=
    if st.options.editable then some (handleCalls center radius) else st.handles
  { st with circle := circle', handles := handles' }

/-- The `center` property setter (`lib/main.ts` lines 423–433): write the
edit value during a center-drag, the committed value otherwise, then
`updateCircle` (the `animate` call only pushes data to the map). -/
def setCenterProp (st : CircleState) (c : ℚ × ℚ) : CircleState :=
  let st' :=
    if st.centerDragActive then { st with editCenterLngLat := c }
    else { st with currentCenterLngLat := c }
  updateCircle st'

/-- The `radius` property setter (`lib/main.ts` lines 441–449): clamp to
`[minRadius, maxRadius]`, write the edit value during a radius-drag, the
committed value otherwise, then `updateCircle`. -/
def setRadiusProp (st : CircleState) (r : ℚ) : CircleState :=
  let st' :=
    if st.radiusDragActive then { st with editRadius := clampRadius st.options r }
    else { st with currentRadius := clampRadius st.options r }
  updateCircle st'

/-- Effect of the circle's own `onCenterChanged` / `onRadiusChanged`
listeners (`lib/main.ts` lines 835–838 and 975–977), which are registered
on `'centerchanged'`/`'radiuschanged'` in `addTo` when the circle is
editable: they copy the current getter value into the last-committed
snapshot.  When the listeners are not registered the emission leaves the
snapshot untouched. -/
def processEmit (st : CircleState) (e : CircleEvent) : CircleState :=
  if st.changedListenersBound then
    match e with
    | CircleEvent.centerchanged => { st with lastCenterLngLat := st.activeCenter }
    | CircleEvent.radiuschanged => { st with lastRadius := st.activeRadius }
  else st

/-- The `applyUpdate` closure of `setRadius` (`lib/main.ts` lines 393–399),
invoked with the pre-rounded radius: assign through the clamping setter,
then emit `'radiuschanged'` only when the requested value differs from the
snapshot *and* the post-clamp getter equals the requested value. -/
def applyUpdateRadius (st : CircleState) (newRadius : ℤ) : CircleState × List CircleEvent :=
  let st1 := setRadiusProp st (newRadius : ℚ)
  if st1.lastRadius ≠ (newRadius : ℚ) ∧ st1.activeRadius = (newRadius : ℚ) then
    (processEmit st1 CircleEvent.radiuschanged, [CircleEvent.radiuschanged])
  else (st1, [])

/-- The `applyUpdate` closure of `setCenter` (`lib/main.ts` lines 365–370):
assign through the center setter, then emit `'centerchanged'` only when
*both* coordinates differ from the snapshot (the source uses `&&`). -/
def applyUpdateCenter (st : CircleState) (pos : ℚ × ℚ) : CircleState × List CircleEvent :=
  let st1 := setCenterProp st pos
  if st1.activeCenter.1 ≠ st1.lastCenterLngLat.1 ∧ st1.activeCenter.2 ≠ st1.lastCenterLngLat.2 then
    (processEmit st1 CircleEvent.centerchanged, [CircleEvent.centerchanged])
  else (st1, [])

/-- Public `setRadius` (`lib/main.ts` lines 391–408): round the argument;
apply immediately when a map is set, otherwise queue the closure on the
one-shot `'rendered'` listener. -/
def setRadius (st : CircleState) (r : ℚ) : CircleState × List CircleEvent :=
  let newRadius := jsRound r
  if st.attachedMap.isSome then applyUpdateRadius st newRadius
  else ({ st with pendingRendered := st.pendingRendered ++ [PendingMutation.setRadiusP newRadius] }, [])

/-- Public `setCenter` (`lib/main.ts` lines 364–379). -/
def setCenter (st : CircleState) (pos : ℚ × ℚ) : CircleState × List CircleEvent :=
  if st.attachedMap.isSome then applyUpdateCenter st pos
  else ({ st with pendingRendered := st.pendingRendered ++ [PendingMutation.setCenterP pos] }, [])

/-- Public `getRadius` (`lib/main.ts` lines 384–386): the `radius` getter. -/
def getRadius (st : CircleState) : ℚ := st.activeRadius

/-- Public `getCenter` (`lib/main.ts` lines 357–359), as `[lng, lat]`. -/
def getCenter (st : CircleState) : ℚ × ℚ := st.activeCenter

/-- The `MapboxCircle` constructor (`lib/main.ts` lines 84–156): all three
center fields start at the given center, all three radius fields at the
*rounded* — but not clamped — radius; drags inactive; map, zoom, geometry
undefined; finishes with `updateCircle`. -/
def construct (center : ℚ × ℚ) (radius : ℚ) (opts : Options) : CircleState :=
  updateCircle
    { instanceId := 0
      lastCenterLngLat := center
      editCenterLngLat := center
      currentCenterLngLat := center
      lastRadius := (jsRound radius : ℚ)
      editRadius := (jsRound radius : ℚ)
      currentRadius := (jsRound radius : ℚ)
      options := opts
      zoom := none
      circle := none
      handles := none
      centerDragActive := false
      radiusDragActive := false
      attachedMap := none
      pendingRendered := []
      centerHandleListenersBound := false
      radiusHandleListenersBound := false
      changedListenersBound := false
      broadcastBound := false }

/-! ## Suspend/resume broadcast handlers (`__MONOSTATE.broadcast`) -/

/-- `onCenterHandleSuspendEvents` (`lib/main.ts` lines 753–757): unbind the
center-handle listeners unless the suspension came from this very instance
for its own center drag. -/
def onCenterHandleSuspendEvents (origin : ℕ) (kind : HandleKind) (c : CircleState) : CircleState :=
  if c.instanceId ≠ origin ∨ kind = HandleKind.radius then
    { c with centerHandleListenersBound := false }
  else c

/-- `onCenterHandleResumeEvents` (`lib/main.ts` lines 764–768). -/
def onCenterHandleResumeEvents (origin : ℕ) (kind : HandleKind) (c : CircleState) : CircleState :=
  if c.instanceId ≠ origin ∨ kind = HandleKind.radius then
    { c with centerHandleListenersBound := true }
  else c

/-- `onRadiusHandlesSuspendEvents` (`lib/main.ts` lines 894–898). -/
def onRadiusHandlesSuspendEvents (origin : ℕ) (kind : HandleKind) (c : CircleState) : CircleState :=
  if c.instanceId ≠ origin ∨ kind = HandleKind.center then
    { c with radiusHandleListenersBound := false }
  else c

/-- `onRadiusHandlesResumeEvents` (`lib/main.ts` lines 905–909). -/
def onRadiusHandlesResumeEvents (origin : ℕ) (kind : HandleKind) (c : CircleState) : CircleState :=
  if c.instanceId ≠ origin ∨ kind = HandleKind.center then
    { c with radiusHandleListenersBound := true }
  else c

/-- Combined effect on one subscribed circle of the two handle-listener
suspend broadcasts emitted by `suspendHandleListeners`
(`lib/main.ts` lines 697–701). -/
def receiveSuspend (origin : ℕ) (kind : HandleKind) (c : CircleState) : CircleState :=
  onRadiusHandlesSuspendEvents origin kind (onCenterHandleSuspendEvents origin kind c)

/-- Combined effect on one subscribed circle of the two handle-listener
resume broadcasts emitted by `resumeHandleListeners`
(`lib/main.ts` lines 707–711). -/
def receiveResume (origin : ℕ) (kind : HandleKind) (c : CircleState) : CircleState :=
  onRadiusHandlesResumeEvents origin kind (onCenterHandleResumeEvents origin kind c)

/-- The broadcast effect a dragging circle receives from its *own*
`suspendHandleListeners` emission (it is itself subscribed to the
monostate bus while editable and attached). -/
def selfBroadcast (f : ℕ → HandleKind → CircleState → CircleState)
    (kind : HandleKind) (st : CircleState) : CircleState :=
  if st.broadcastBound then f st.instanceId kind st else st

/-! ## Drag handlers -/

/-- `onCenterHandleMouseDown` (`lib/main.ts` lines 773–781): mark the
center-drag active and broadcast `suspendHandleListeners('center')`
(whose effect on this instance is to unbind its own radius-handle
listeners; layer/cursor bookkeeping has no model state). -/
def onCenterHandleMouseDown (st : CircleState) : CircleState × List CircleEvent :=
  (selfBroadcast receiveSuspend HandleKind.center { st with centerDragActive := true }, [])

/-- `onCenterHandleMouseMove` (`lib/main.ts` lines 787–792): the unprojected
and 6-decimal-truncated mouse point — an external map input — is assigned
through the `center` setter. -/
def onCenterHandleMouseMove (st : CircleState) (mousePoint : ℚ × ℚ) : CircleState × List CircleEvent :=
  (setCenterProp st mousePoint, [])

/-- The completed-drag path of `onCenterHandleMouseUpOrMapMouseOut`
(`lib/main.ts` lines 798–830), i.e. the path that is not the early-return
re-arm for a spurious canvas↔marker `mouseout`: read the edit center,
deactivate the drag, broadcast `resumeHandleListeners('center')`, and if
the new center differs from the snapshot in *either* coordinate (the
source uses `||` here) commit it through the setter and emit
`'centerchanged'`. -/
def onCenterHandleMouseUpOrMapMouseOut (st : CircleState) : CircleState × List CircleEvent :=
  let newCenter := st.activeCenter
  let st1 := { st with centerDragActive := false }
  let st2 := selfBroadcast receiveResume HandleKind.center st1
  if newCenter.1 ≠ st2.lastCenterLngLat.1 ∨ newCenter.2 ≠ st2.lastCenterLngLat.2 then
    let st3 := setCenterProp st2 newCenter
    (processEmit st3 CircleEvent.centerchanged, [CircleEvent.centerchanged])
  else (st2, [])

/-- `onRadiusHandlesMouseDown` (`lib/main.ts` lines 915–923). -/
def onRadiusHandlesMouseDown (st : CircleState) : CircleState × List CircleEvent :=
  (selfBroadcast receiveSuspend HandleKind.radius { st with radiusDragActive := true }, [])

/-- `onRadiusHandlesMouseMove` (`lib/main.ts` lines 929–932): the distance
from the active center to the unprojected mouse point — an external
geodesy-library result — is rounded and assigned through the `radius`
setter. -/
def onRadiusHandlesMouseMove (st : CircleState) (dist : ℚ) : CircleState × List CircleEvent :=
  (setRadiusProp st ((jsRound dist : ℤ) : ℚ), [])

/-- The completed-drag path of `onRadiusHandlesMouseUpOrMapMouseOut`
(`lib/main.ts` lines 938–970): read the edit radius, deactivate the drag,
broadcast `resumeHandleListeners('radius')`, and if the new radius differs
from the snapshot commit it through the setter and emit
`'radiuschanged'`. -/
def onRadiusHandlesMouseUpOrMapMouseOut (st : CircleState) : CircleState × List CircleEvent :=
  let newRadius := st.activeRadius
  let st1 := { st with radiusDragActive := false }
  let st2 := selfBroadcast receiveResume HandleKind.radius st1
  if newRadius ≠ st2.lastRadius then
    let st3 := setRadiusProp st2 newRadius
    (processEmit st3 CircleEvent.radiuschanged, [CircleEvent.radiuschanged])
  else (st2, [])

/-! ## Attach lifecycle -/

/-- `setZoom` (`lib/main.ts` lines 457–463): store the zoom and recompute
only when `refineStroke` is enabled. -/
def setZoomFn (st : CircleState) (z : ℚ) : CircleState :=
  let st' := { st with zoom := some z }
  if st'.options.refineStroke then updateCircle st' else st'

/-- Flush of the one-shot `'rendered'` listeners queued by
pre-attach `setCenter`/`setRadius` calls: each queued `applyUpdate`
closure runs exactly once, in registration order, and the listeners are
gone afterwards. -/
def applyPendingMutation (st : CircleState) (p : PendingMutation) : CircleState × List CircleEvent :=
  match p with
  | PendingMutation.setCenterP pos => applyUpdateCenter st pos
  | PendingMutation.setRadiusP n => applyUpdateRadius st n

/-- Thread a state/event-emitting step function through a list of inputs,
accumulating the emitted events in order. -/
def accumRun {σ ι : Type} (f : σ → ι → σ × List CircleEvent) (s : σ) (l : List ι) :
    σ × List CircleEvent :=
  l.foldl
    (fun acc i =>
      let res := f acc.1 i
      (res.1, acc.2 ++ res.2))
    (s, [])

/-- Run all pending `'rendered'` mutations in order, collecting emitted
events, and clear the queue. -/
def flushPending (st : CircleState) : CircleState × List CircleEvent :=
  accumRun applyPendingMutation { st with pendingRendered := [] } st.pendingRendered

/-- The guard at the top of the TypeScript `addTo`
(`lib/main.ts` lines 203–208): throw `TypeError('Map is undefined.')` on an
undefined map, otherwise assign `this.map = map` — a plain field write with
*no* reassignment guard. -/
def addTo_ts (st : CircleState) (m : Option ℕ) : Except String CircleState :=
  match m with
  | none => Except.error "Map is undefined."
  | some mid => Except.ok { st with attachedMap := some mid }

/-- The `addCircleAssetsOnMap` closure of `addTo`
(`lib/main.ts` lines 214–259), run once the map is loaded and style-ready,
on a circle whose `map` field was already set by `addTo`: bind the fill
listeners; when editable, bind both handle-listener sets, register the
`onCenterChanged`/`onRadiusChanged` listeners and subscribe to the
monostate broadcast; `setZoom(map.getZoom())` with the map's zoom as an
external input; finally emit the one-shot `'rendered'` signal, which runs
every queued mutation exactly once. -/
def addCircleAssetsOnMap (st : CircleState) (z : ℚ) : CircleState × List CircleEvent :=
  let st1 :=
    if st.options.editable then
      { st with
        centerHandleListenersBound := true
        radiusHandleListenersBound := true
        changedListenersBound := true
        broadcastBound := true }
    else st
  let st2 := setZoomFn st1 z
  flushPending st2

/-- The successful attach of `addTo(map)` on a loaded, style-ready map
(`lib/main.ts` lines 203–273): set the `map` field, then run
`addCircleAssetsOnMap` synchronously. -/
def attachComplete (st : CircleState) (m : ℕ) (z : ℚ) : CircleState × List CircleEvent :=
  addCircleAssetsOnMap { st with attachedMap := some m } z

/-! ## Legacy JavaScript implementation (`lib/main.js`) -/

/-- The `map` property setter of the legacy JavaScript implementation
(`lib/main.js` lines 84–90): assign when not attached or when clearing,
otherwise throw `TypeError('MapboxCircle.map reassignment.')` — the state
is returned unchanged in the error case because the throw happens before
any assignment. -/
def mainjs_setMap (cur : Option ℕ) (m : Option ℕ) : Except String (Option ℕ) :=
  if cur = none ∨ m = none then Except.ok m
  else Except.error "MapboxCircle.map reassignment."

/-- The `setCenter` emission condition of the legacy JavaScript
implementation (`lib/main.js` line 856) — also `&&` between the coordinate
comparisons, like the TypeScript `setCenter` and unlike the TypeScript
drag-end commit. -/
def mainjs_setCenterEmits (newCenter lastCenter : ℚ × ℚ) : Bool :=
  newCenter.1 ≠ lastCenter.1 ∧ newCenter.2 ≠ lastCenter.2

/-! ## Operation-level step function -/

/-- The externally-triggerable operations of one circle's state machine:
public API calls, the pointer-driven drag handlers (with external map
inputs inlined), attach completion, and zoom end. -/
inductive Op where
  | setRadiusOp (r : ℚ)
  | setCenterOp (pos : ℚ × ℚ)
  | centerDragStart
  | centerDragMove (mousePoint : ℚ × ℚ)
  | centerDragEnd
  | radiusDragStart
  | radiusDragMove (dist : ℚ)
  | radiusDragEnd
  | attachOp (m : ℕ) (z : ℚ)
  | zoomEndOp (z : ℚ)
  deriving Repr, DecidableEq

/-- One step of the circle state machine, returning the successor state and
the public events emitted during the step. -/
def stepOp (st : CircleState) (op : Op) : CircleState × List CircleEvent :=
  match op with
  | Op.setRadiusOp r => setRadius st r
  | Op.setCenterOp pos => setCenter st pos
  | Op.centerDragStart => onCenterHandleMouseDown st
  | Op.centerDragMove p => onCenterHandleMouseMove st p
  | Op.centerDragEnd => onCenterHandleMouseUpOrMapMouseOut st
  | Op.radiusDragStart => onRadiusHandlesMouseDown st
  | Op.radiusDragMove d => onRadiusHandlesMouseMove st d
  | Op.radiusDragEnd => onRadiusHandlesMouseUpOrMapMouseOut st
  | Op.attachOp m z => attachComplete st m z
  | Op.zoomEndOp z => (setZoomFn st z, [])

/-- Run a list of operations from a state, accumulating emitted events. -/
def runOps (st : CircleState) (ops : List Op) : CircleState × List CircleEvent :=
  accumRun stepOp st ops

/-! ## Multi-circle world: the `__MONOSTATE` broadcast bus

`MapboxCircleMonostate.activeEditableCircles` holds every editable circle
currently attached to a map; each of them is subscribed to the shared
broadcast emitter.  A `suspendHandleListeners`/`resumeHandleListeners`
call delivers its events synchronously to every registered circle. -/

/-- Deliver the suspend broadcast of a starting drag to every registered
circle (the emitting circle included — it is subscribed too). -/
def worldSuspend (w : List CircleState) (origin : ℕ) (kind : HandleKind) : List CircleState :=
  w.map (receiveSuspend origin kind)

/-- Deliver the resume broadcast of an ending drag to every registered
circle. -/
def worldResume (w : List CircleState) (origin : ℕ) (kind : HandleKind) : List CircleState :=
  w.map (receiveResume origin kind)

/-- A pointer-move input delivered to the dragging circle while a drag is
in progress. -/
inductive MoveInp where
  | centerMove (p : ℚ × ℚ)
  | radiusMove (d : ℚ)
  deriving Repr, DecidableEq

/-- Apply a drag move to one circle (moves only touch geometry, never
listener bindings). -/
def applyMove (c : CircleState) (i : MoveInp) : CircleState :=
  match i with
  | MoveInp.centerMove p => setCenterProp c p
  | MoveInp.radiusMove d => setRadiusProp c ((jsRound d : ℤ) : ℚ)

/-- Deliver a drag move to the dragging circle inside the world. -/
def worldMove (w : List CircleState) (origin : ℕ) (i : MoveInp) : List CircleState :=
  w.map (fun c => if c.instanceId = origin then applyMove c i else c)

/-- Deliver a list of drag moves to the dragging circle. -/
def worldMoves (w : List CircleState) (origin : ℕ) (moves : List MoveInp) : List CircleState :=
  moves.foldl (fun w' i => worldMove w' origin i) w

/-! ## Concrete scenario states -/

/-- Options with a small `maxRadius`, editable (the spec's own scenarios use
custom radius limits, e.g. `maxRadius=500000`). -/
def optsSmallMax : Options :=
  { editable := true, minRadius := 10, maxRadius := 100, refineStroke := false }

/-- Default options with editing enabled. -/
def editableOptions : Options := { defaultOptions with editable := true }

/-- A non-editable circle at `(0, 0)` with radius `50` and default options,
attached to map `1` at zoom `12`. -/
def baseCircle : CircleState := (attachComplete (construct (0, 0) 50 defaultOptions) 1 12).1

/-- An editable circle constructed with radius `150` under
`maxRadius = 100` (the constructor does not clamp), attached, then
`setRadius(100)`: committed radius and snapshot are `100`, while the stale
edit radius is still `150`. -/
def smallMaxCircle : CircleState :=
  (setRadius (attachComplete (construct (0, 0) 150 optsSmallMax) 1 5).1 100).1

/-- An editable circle at `(0, 0)` with radius `50` and default options,
attached to map `1` at zoom `5`. -/
def editCircle : CircleState := (attachComplete (construct (0, 0) 50 editableOptions) 1 5).1

/-- `editCircle` after a center-drag started and two pointer moves, to
`(1, 1)` and then `(2, 2)` — radius `50 < 10000`, so both recompute cycles
skip the polygon. -/
def c7state : CircleState :=
  (runOps editCircle [Op.centerDragStart, Op.centerDragMove (1, 1), Op.centerDragMove (2, 2)]).1

/-- A registered editable circle with id `1`, listeners bound (world
member for the suspend/resume claims). -/
def worldCircleA : CircleState :=
  { instanceId := 1
    lastCenterLngLat := (0, 0)
    editCenterLngLat := (0, 0)
    currentCenterLngLat := (0, 0)
    lastRadius := 50
    editRadius := 50
    currentRadius := 50
    options := editableOptions
    zoom := some 5
    circle := some ⟨(0, 0), 50, 64⟩
    handles := some (handleCalls (0, 0) 50)
    centerDragActive := false
    radiusDragActive := false
    attachedMap := some 1
    pendingRendered := []
    centerHandleListenersBound := true
    radiusHandleListenersBound := true
    changedListenersBound := true
    broadcastBound := true }

/-- A second registered editable circle with id `2`, overlapping the
first, listeners bound. -/
def worldCircleB : CircleState :=
  { worldCircleA with
    instanceId := 2
    lastCenterLngLat := (3, 3)
    editCenterLngLat := (3, 3)
    currentCenterLngLat := (3, 3)
    circle := some ⟨(3, 3), 50, 64⟩
    handles := some (handleCalls (3, 3) 50) }

/-- The edit radius the drag holds when a radius-drag that started in `st`
ends after the given list of pointer-move distances. -/
def radiusDragEndValue (st : CircleState) (moves : List ℚ) : ℚ :=
  ((runOps st ([Op.radiusDragStart] ++ moves.map Op.radiusDragMove)).1).activeRadius

/-- The event trace of one complete radius-drag: mouse-down, the given
pointer moves, then a completed mouse-up/mouse-out. -/
def radiusDragTrace (st : CircleState) (moves : List ℚ) : CircleState × List CircleEvent :=
  runOps st ([Op.radiusDragStart] ++ moves.map Op.radiusDragMove ++ [Op.radiusDragEnd])

/-- The committed/edit radii invariant of the spec: both the committed and
the edit radius lie within `[minRadius, maxRadius]`. -/
def RadiusInBounds (st : CircleState) : Prop :=
  st.options.minRadius ≤ st.currentRadius ∧ st.currentRadius ≤ st.options.maxRadius ∧
    st.options.minRadius ≤ st.editRadius ∧ st.editRadius ≤ st.options.maxRadius

instance (st : CircleState) : Decidable (RadiusInBounds st) := by
  unfold RadiusInBounds; infer_instance

/-! ## Field-preservation lemmas -/

@[simp] theorem updateCircle_options (st : CircleState) : (updateCircle st).options = st.options := rfl

@[simp] theorem updateCircle_currentRadius (st : CircleState) :
    (updateCircle st).currentRadius = st.currentRadius := rfl

@[simp] theorem updateCircle_editRadius (st : CircleState) :
    (updateCircle st).editRadius = st.editRadius := rfl

@[simp] theorem updateCircle_lastRadius (st : CircleState) :
    (updateCircle st).lastRadius = st.lastRadius := rfl

@[simp] theorem updateCircle_radiusDragActive (st : CircleState) :
    (updateCircle st).radiusDragActive = st.radiusDragActive := rfl

@[simp] theorem updateCircle_centerDragActive (st : CircleState) :
    (updateCircle st).centerDragActive = st.centerDragActive := rfl

@[simp] theorem updateCircle_zoom (st : CircleState) : (updateCircle st).zoom = st.zoom := rfl

@[simp] theorem updateCircle_attachedMap (st : CircleState) :
    (updateCircle st).attachedMap = st.attachedMap := rfl

@[simp] theorem updateCircle_pendingRendered (st : CircleState) :
    (updateCircle st).pendingRendered = st.pendingRendered := rfl

@[simp] theorem updateCircle_instanceId (st : CircleState) :
    (updateCircle st).instanceId = st.instanceId := rfl

@[simp] theorem updateCircle_currentCenterLngLat (st : CircleState) :
    (updateCircle st).currentCenterLngLat = st.currentCenterLngLat := rfl

@[simp] theorem updateCircle_editCenterLngLat (st : CircleState) :
    (updateCircle st).editCenterLngLat = st.editCenterLngLat := rfl

@[simp] theorem updateCircle_lastCenterLngLat (st : CircleState) :
    (updateCircle st).lastCenterLngLat = st.lastCenterLngLat := rfl

@[simp] theorem updateCircle_centerHandleListenersBound (st : CircleState) :
    (updateCircle st).centerHandleListenersBound = st.centerHandleListenersBound := rfl

@[simp] theorem updateCircle_radiusHandleListenersBound (st : CircleState) :
    (updateCircle st).radiusHandleListenersBound = st.radiusHandleListenersBound := rfl

@[simp] theorem updateCircle_changedListenersBound (st : CircleState) :
    (updateCircle st).changedListenersBound = st.changedListenersBound := rfl

@[simp] theorem updateCircle_broadcastBound (st : CircleState) :
    (updateCircle st).broadcastBound = st.broadcastBound := rfl

@[simp] theorem setRadiusProp_currentRadius (st : CircleState) (r : ℚ) :
    (setRadiusProp st r).currentRadius =
      if st.radiusDragActive then st.currentRadius else clampRadius st.options r := by
  unfold setRadiusProp; split <;> simp [*]

@[simp] theorem setRadiusProp_editRadius (st : CircleState) (r : ℚ) :
    (setRadiusProp st r).editRadius =
      if st.radiusDragActive then clampRadius st.options r else st.editRadius := by
  unfold setRadiusProp; split <;> simp [*]

@[simp] theorem setRadiusProp_options (st : CircleState) (r : ℚ) :
    (setRadiusProp st r).options = st.options := by
  unfold setRadiusProp; split <;> simp

@[simp] theorem setRadiusProp_lastRadius (st : CircleState) (r : ℚ) :
    (setRadiusProp st r).lastRadius = st.lastRadius := by
  unfold setRadiusProp; split <;> simp

@[simp] theorem setRadiusProp_radiusDragActive (st : CircleState) (r : ℚ) :
    (setRadiusProp st r).radiusDragActive = st.radiusDragActive := by
  unfold setRadiusProp; split <;> simp [*]

@[simp] theorem setRadiusProp_centerDragActive (st : CircleState) (r : ℚ) :
    (setRadiusProp st r).centerDragActive = st.centerDragActive := by
  unfold setRadiusProp; split <;> simp

@[simp] theorem setRadiusProp_attachedMap (st : CircleState) (r : ℚ) :
    (setRadiusProp st r).attachedMap = st.attachedMap := by
  unfold setRadiusProp; split <;> simp

@[simp] theorem setRadiusProp_pendingRendered (st : CircleState) (r : ℚ) :
    (setRadiusProp st r).pendingRendered = st.pendingRendered := by
  unfold setRadiusProp; split <;> simp

@[simp] theorem setRadiusProp_instanceId (st : CircleState) (r : ℚ) :
    (setRadiusProp st r).instanceId = st.instanceId := by
  unfold setRadiusProp; split <;> simp

@[simp] theorem setRadiusProp_centerHandleListenersBound (st : CircleState) (r : ℚ) :
    (setRadiusProp st r).centerHandleListenersBound = st.centerHandleListenersBound := by
  unfold setRadiusProp; split <;> simp

@[simp] theorem setRadiusProp_radiusHandleListenersBound (st : CircleState) (r : ℚ) :
    (setRadiusProp st r).radiusHandleListenersBound = st.radiusHandleListenersBound := by
  unfold setRadiusProp; split <;> simp

@[simp] theorem setRadiusProp_lastCenterLngLat (st : CircleState) (r : ℚ) :
    (setRadiusProp st r).lastCenterLngLat = st.lastCenterLngLat := by
  unfold setRadiusProp; split <;> simp

@[simp] theorem setRadiusProp_currentCenterLngLat (st : CircleState) (r : ℚ) :
    (setRadiusProp st r).currentCenterLngLat = st.currentCenterLngLat := by
  unfold setRadiusProp; split <;> simp

@[simp] theorem setRadiusProp_editCenterLngLat (st : CircleState) (r : ℚ) :
    (setRadiusProp st r).editCenterLngLat = st.editCenterLngLat := by
  unfold setRadiusProp; split <;> simp

@[simp] theorem setCenterProp_currentRadius (st : CircleState) (c : ℚ × ℚ) :
    (setCenterProp st c).currentRadius = st.currentRadius := by
  unfold setCenterProp; split <;> simp

@[simp] theorem setCenterProp_editRadius (st : CircleState) (c : ℚ × ℚ) :
    (setCenterProp st c).editRadius = st.editRadius := by
  unfold setCenterProp; split <;> simp

@[simp] theorem setCenterProp_lastRadius (st : CircleState) (c : ℚ × ℚ) :
    (setCenterProp st c).lastRadius = st.lastRadius := by
  unfold setCenterProp; split <;> simp

@[simp] theorem setCenterProp_options (st : CircleState) (c : ℚ × ℚ) :
    (setCenterProp st c).options = st.options := by
  unfold setCenterProp; split <;> simp

@[simp] theorem setCenterProp_radiusDragActive (st : CircleState) (c : ℚ × ℚ) :
    (setCenterProp st c).radiusDragActive = st.radiusDragActive := by
  unfold setCenterProp; split <;> simp

@[simp] theorem setCenterProp_centerDragActive (st : CircleState) (c : ℚ × ℚ) :
    (setCenterProp st c).centerDragActive = st.centerDragActive := by
  unfold setCenterProp; split <;> simp

@[simp] theorem setCenterProp_attachedMap (st : CircleState) (c : ℚ × ℚ) :
    (setCenterProp st c).attachedMap = st.attachedMap := by
  unfold setCenterProp; split <;> simp

@[simp] theorem setCenterProp_pendingRendered (st : CircleState) (c : ℚ × ℚ) :
    (setCenterProp st c).pendingRendered = st.pendingRendered := by
  unfold setCenterProp; split <;> simp

@[simp] theorem setCenterProp_instanceId (st : CircleState) (c : ℚ × ℚ) :
    (setCenterProp st c).instanceId = st.instanceId := by
  unfold setCenterProp; split <;> simp

@[simp] theorem setCenterProp_centerHandleListenersBound (st : CircleState) (c : ℚ × ℚ) :
    (setCenterProp st c).centerHandleListenersBound = st.centerHandleListenersBound := by
  unfold setCenterProp; split <;> simp

@[simp] theorem setCenterProp_radiusHandleListenersBound (st : CircleState) (c : ℚ × ℚ) :
    (setCenterProp st c).radiusHandleListenersBound = st.radiusHandleListenersBound := by
  unfold setCenterProp; split <;> simp

@[simp] theorem setCenterProp_lastCenterLngLat (st : CircleState) (c : ℚ × ℚ) :
    (setCenterProp st c).lastCenterLngLat = st.lastCenterLngLat := by
  unfold setCenterProp; split <;> simp

@[simp] theorem setCenterProp_currentCenterLngLat (st : CircleState) (c : ℚ × ℚ) :
    (setCenterProp st c).currentCenterLngLat =
      if st.centerDragActive then st.currentCenterLngLat else c := by
  unfold setCenterProp; split <;> simp [*]

@[simp] theorem setCenterProp_editCenterLngLat (st : CircleState) (c : ℚ × ℚ) :
    (setCenterProp st c).editCenterLngLat =
      if st.centerDragActive then c else st.editCenterLngLat := by
  unfold setCenterProp; split <;> simp [*]

@[simp] theorem processEmit_currentRadius (st : CircleState) (e : CircleEvent) :
    (processEmit st e).currentRadius = st.currentRadius := by
  unfold processEmit; split <;> [skip; rfl]; split <;> rfl

@[simp] theorem processEmit_editRadius (st : CircleState) (e : CircleEvent) :
    (processEmit st e).editRadius = st.editRadius := by
  unfold processEmit; split <;> [skip; rfl]; split <;> rfl

@[simp] theorem processEmit_options (st : CircleState) (e : CircleEvent) :
    (processEmit st e).options = st.options := by
  unfold processEmit; split <;> [skip; rfl]; split <;> rfl

@[simp] theorem processEmit_radiusDragActive (st : CircleState) (e : CircleEvent) :
    (processEmit st e).radiusDragActive = st.radiusDragActive := by
  unfold processEmit; split <;> [skip; rfl]; split <;> rfl

@[simp] theorem processEmit_centerDragActive (st : CircleState) (e : CircleEvent) :
    (processEmit st e).centerDragActive = st.centerDragActive := by
  unfold processEmit; split <;> [skip; rfl]; split <;> rfl

@[simp] theorem processEmit_attachedMap (st : CircleState) (e : CircleEvent) :
    (processEmit st e).attachedMap = st.attachedMap := by
  unfold processEmit; split <;> [skip; rfl]; split <;> rfl

@[simp] theorem processEmit_currentCenterLngLat (st : CircleState) (e : CircleEvent) :
    (processEmit st e).currentCenterLngLat = st.currentCenterLngLat := by
  unfold processEmit; split <;> [skip; rfl]; split <;> rfl

@[simp] theorem processEmit_editCenterLngLat (st : CircleState) (e : CircleEvent) :
    (processEmit st e).editCenterLngLat = st.editCenterLngLat := by
  unfold processEmit; split <;> [skip; rfl]; split <;> rfl

@[simp] theorem processEmit_pendingRendered (st : CircleState) (e : CircleEvent) :
    (processEmit st e).pendingRendered = st.pendingRendered := by
  unfold processEmit; split <;> [skip; rfl]; split <;> rfl

@[simp] theorem processEmit_instanceId (st : CircleState) (e : CircleEvent) :
    (processEmit st e).instanceId = st.instanceId := by
  unfold processEmit; split <;> [skip; rfl]; split <;> rfl

/-- The suspend/resume broadcast handlers only toggle the two
handle-listener booleans: a helper stating every other field is kept.
`f` ranges over the four handlers composed in `receiveSuspend` and
`receiveResume` and over `selfBroadcast` applications of them. -/
def OnlyTogglesHandleFlags (f : CircleState → CircleState) : Prop :=
  ∀ st : CircleState,
    (f st).instanceId = st.instanceId ∧
    (f st).lastCenterLngLat = st.lastCenterLngLat ∧
    (f st).editCenterLngLat = st.editCenterLngLat ∧
    (f st).currentCenterLngLat = st.currentCenterLngLat ∧
    (f st).lastRadius = st.lastRadius ∧
    (f st).editRadius = st.editRadius ∧
    (f st).currentRadius = st.currentRadius ∧
    (f st).options = st.options ∧
    (f st).zoom = st.zoom ∧
    (f st).circle = st.circle ∧
    (f st).handles = st.handles ∧
    (f st).centerDragActive = st.centerDragActive ∧
    (f st).radiusDragActive = st.radiusDragActive ∧
    (f st).attachedMap = st.attachedMap ∧
    (f st).pendingRendered = st.pendingRendered ∧
    (f st).changedListenersBound = st.changedListenersBound ∧
    (f st).broadcastBound = st.broadcastBound

theorem receiveSuspend_onlyToggles (origin : ℕ) (kind : HandleKind) :
    OnlyTogglesHandleFlags (receiveSuspend origin kind) := by
  intro st
  unfold receiveSuspend onCenterHandleSuspendEvents onRadiusHandlesSuspendEvents
  split <;> split <;> simp

theorem receiveResume_onlyToggles (origin : ℕ) (kind : HandleKind) :
    OnlyTogglesHandleFlags (receiveResume origin kind) := by
  intro st
  unfold receiveResume onCenterHandleResumeEvents onRadiusHandlesResumeEvents
  split <;> split <;> simp

theorem selfBroadcast_onlyToggles (f : ℕ → HandleKind → CircleState → CircleState)
    (hf : ∀ origin kind, OnlyTogglesHandleFlags (f origin kind)) (kind : HandleKind) :
    OnlyTogglesHandleFlags (selfBroadcast f kind) := by
  intro st
  unfold selfBroadcast
  split
  · exact hf st.instanceId kind st
  · simp

/-! ## Clamping and invariant lemmas -/

theorem clampRadius_le_max (opts : Options) (x : ℚ) :
    clampRadius opts x ≤ opts.maxRadius := min_le_right _ _

theorem min_le_clampRadius (opts : Options) (x : ℚ)
    (h : opts.minRadius ≤ opts.maxRadius) : opts.minRadius ≤ clampRadius opts x :=
  le_min (le_max_left _ _) h

/-! ## Accumulating-run lemmas -/

theorem accumRun_nil {σ ι : Type} (f : σ → ι → σ × List CircleEvent) (s : σ) :
    accumRun f s [] = (s, []) := rfl

theorem accumRun_acc {σ ι : Type} (f : σ → ι → σ × List CircleEvent) :
    ∀ (l : List ι) (s : σ) (evs : List CircleEvent),
      l.foldl (fun acc i => ((f acc.1 i).1, acc.2 ++ (f acc.1 i).2)) (s, evs) =
        ((accumRun f s l).1, evs ++ (accumRun f s l).2) := by
  intro l
  induction l with
  | nil => intro s evs; simp [accumRun]
  | cons i l ih =>
      intro s evs
      show List.foldl _ ((f s i).1, evs ++ (f s i).2) l = _
      rw [ih]
      have h2 : accumRun f s (i :: l) =
          List.foldl (fun acc j => ((f acc.1 j).1, acc.2 ++ (f acc.1 j).2)) ((f s i).1, [] ++ (f s i).2) l := rfl
      rw [h2, ih]
      simp

theorem accumRun_cons {σ ι : Type} (f : σ → ι → σ × List CircleEvent) (s : σ) (i : ι) (l : List ι) :
    accumRun f s (i :: l) =
      ((accumRun f (f s i).1 l).1, (f s i).2 ++ (accumRun f (f s i).1 l).2) := by
  show List.foldl _ ((f s i).1, [] ++ (f s i).2) l = _
  rw [accumRun_acc]
  simp

theorem accumRun_append {σ ι : Type} (f : σ → ι → σ × List CircleEvent) (s : σ)
    (l1 l2 : List ι) :
    accumRun f s (l1 ++ l2) =
      ((accumRun f (accumRun f s l1).1 l2).1,
        (accumRun f s l1).2 ++ (accumRun f (accumRun f s l1).1 l2).2) := by
  induction l1 generalizing s with
  | nil => simp [accumRun_nil]
  | cons i l1 ih =>
      rw [List.cons_append, accumRun_cons, accumRun_cons, ih]
      simp

theorem accumRun_preserve {σ ι : Type} (f : σ → ι → σ × List CircleEvent) (P : σ → Prop)
    (hstep : ∀ s i, P s → P (f s i).1) :
    ∀ (l : List ι) (s : σ), P s → P (accumRun f s l).1 := by
  intro l
  induction l with
  | nil => intro s hs; simpa [accumRun_nil] using hs
  | cons i l ih =>
      intro s hs
      rw [accumRun_cons]
      exact ih _ (hstep s i hs)

theorem accumRun_events_nil {σ ι : Type} (f : σ → ι → σ × List CircleEvent)
    (hf : ∀ s i, (f s i).2 = []) :
    ∀ (l : List ι) (s : σ), (accumRun f s l).2 = [] := by
  intro l
  induction l with
  | nil => intro s; simp [accumRun_nil]
  | cons i l ih =>
      intro s
      rw [accumRun_cons]
      simp [hf, ih]

/-! ## Invariant preservation -/

theorem setRadiusProp_inv (st : CircleState) (r : ℚ)
    (hb : st.options.minRadius ≤ st.options.maxRadius) (h : RadiusInBounds st) :
    RadiusInBounds (setRadiusProp st r) := by
  obtain ⟨h1, h2, h3, h4⟩ := h
  unfold RadiusInBounds
  simp only [setRadiusProp_currentRadius, setRadiusProp_editRadius, setRadiusProp_options]
  by_cases hd : st.radiusDragActive = true <;>
    simp [hd, h1, h2, h3, h4, min_le_clampRadius _ _ hb, clampRadius_le_max]

theorem setCenterProp_inv (st : CircleState) (c : ℚ × ℚ) (h : RadiusInBounds st) :
    RadiusInBounds (setCenterProp st c) := by
  unfold RadiusInBounds at *
  simpa using h

theorem processEmit_inv (st : CircleState) (e : CircleEvent) (h : RadiusInBounds st) :
    RadiusInBounds (processEmit st e) := by
  unfold RadiusInBounds at *
  simpa using h

theorem onlyToggles_inv (f : CircleState → CircleState) (hf : OnlyTogglesHandleFlags f)
    (st : CircleState) (h : RadiusInBounds st) : RadiusInBounds (f st) := by
  obtain ⟨-, -, -, -, -, -, hcr, hopts, -⟩ := hf st
  unfold RadiusInBounds at *
  rw [hcr, hopts, (hf st).2.2.2.2.2.1]
  exact h

theorem applyUpdateRadius_inv (st : CircleState) (n : ℤ)
    (hb : st.options.minRadius ≤ st.options.maxRadius) (h : RadiusInBounds st) :
    RadiusInBounds (applyUpdateRadius st n).1 := by
  unfold applyUpdateRadius
  dsimp only
  split
  · exact processEmit_inv _ _ (setRadiusProp_inv st _ hb h)
  · exact setRadiusProp_inv st _ hb h

theorem applyUpdateCenter_inv (st : CircleState) (pos : ℚ × ℚ) (h : RadiusInBounds st) :
    RadiusInBounds (applyUpdateCenter st pos).1 := by
  unfold applyUpdateCenter
  dsimp only
  split
  · exact processEmit_inv _ _ (setCenterProp_inv st _ h)
  · exact setCenterProp_inv st _ h

theorem applyUpdateRadius_options (st : CircleState) (n : ℤ) :
    (applyUpdateRadius st n).1.options = st.options := by
  unfold applyUpdateRadius
  dsimp only
  split <;> simp

theorem applyUpdateCenter_options (st : CircleState) (pos : ℚ × ℚ) :
    (applyUpdateCenter st pos).1.options = st.options := by
  unfold applyUpdateCenter
  dsimp only
  split <;> simp

/-- The combined step invariant for the committed/edit radius bounds:
a consistent options record and in-bounds radii. -/
def RadiusInv (st : CircleState) : Prop :=
  st.options.minRadius ≤ st.options.maxRadius ∧ RadiusInBounds st

theorem applyPendingMutation_radiusInv (st : CircleState) (p : PendingMutation)
    (h : RadiusInv st) : RadiusInv (applyPendingMutation st p).1 := by
  obtain ⟨hb, h⟩ := h
  cases p with
  | setCenterP pos =>
      exact ⟨by rw [applyPendingMutation, applyUpdateCenter_options]; exact hb,
        applyUpdateCenter_inv st pos h⟩
  | setRadiusP n =>
      exact ⟨by rw [applyPendingMutation, applyUpdateRadius_options]; exact hb,
        applyUpdateRadius_inv st n hb h⟩

theorem setZoomFn_radiusInv (st : CircleState) (z : ℚ) (h : RadiusInv st) :
    RadiusInv (setZoomFn st z) := by
  obtain ⟨hb, h1, h2, h3, h4⟩ := h
  unfold setZoomFn
  dsimp only
  split <;> exact ⟨hb, h1, h2, h3, h4⟩

theorem flushPending_radiusInv (st : CircleState) (h : RadiusInv st) :
    RadiusInv (flushPending st).1 := by
  unfold flushPending
  apply accumRun_preserve applyPendingMutation RadiusInv applyPendingMutation_radiusInv
  obtain ⟨hb, h1, h2, h3, h4⟩ := h
  exact ⟨hb, h1, h2, h3, h4⟩

theorem stepOp_radiusInv (st : CircleState) (op : Op) (h : RadiusInv st) :
    RadiusInv (stepOp st op).1 := by
  obtain ⟨hb, hin⟩ := h
  have hTogS : ∀ kind, OnlyTogglesHandleFlags (selfBroadcast receiveSuspend kind) :=
    fun kind => selfBroadcast_onlyToggles _ receiveSuspend_onlyToggles kind
  have hTogR : ∀ kind, OnlyTogglesHandleFlags (selfBroadcast receiveResume kind) :=
    fun kind => selfBroadcast_onlyToggles _ receiveResume_onlyToggles kind
  cases op with
  | setRadiusOp r =>
      show RadiusInv (setRadius st r).1
      unfold setRadius
      dsimp only
      split
      · exact ⟨by rw [applyUpdateRadius_options]; exact hb, applyUpdateRadius_inv st _ hb hin⟩
      · exact ⟨hb, hin⟩
  | setCenterOp pos =>
      show RadiusInv (setCenter st pos).1
      unfold setCenter
      split
      · exact ⟨by rw [applyUpdateCenter_options]; exact hb, applyUpdateCenter_inv st _ hin⟩
      · exact ⟨hb, hin⟩
  | centerDragStart =>
      show RadiusInv (onCenterHandleMouseDown st).1
      unfold onCenterHandleMouseDown
      have h' : RadiusInv { st with centerDragActive := true } := ⟨hb, hin⟩
      refine ⟨?_, onlyToggles_inv _ (hTogS HandleKind.center) _ h'.2⟩
      rw [((hTogS HandleKind.center) _).2.2.2.2.2.2.2.1]
      exact hb
  | centerDragMove p =>
      show RadiusInv (onCenterHandleMouseMove st p).1
      unfold onCenterHandleMouseMove
      exact ⟨by simp [hb], setCenterProp_inv st _ hin⟩
  | centerDragEnd =>
      show RadiusInv (onCenterHandleMouseUpOrMapMouseOut st).1
      unfold onCenterHandleMouseUpOrMapMouseOut
      have h1 : RadiusInv { st with centerDragActive := false } := ⟨hb, hin⟩
      have h2 := onlyToggles_inv _ (hTogR HandleKind.center) _ h1.2
      have hopts := ((hTogR HandleKind.center) { st with centerDragActive := false }).2.2.2.2.2.2.2.1
      dsimp only
      split
      · refine ⟨?_, processEmit_inv _ _ (setCenterProp_inv _ _ h2)⟩
        simp only [processEmit_options, setCenterProp_options]
        rw [hopts]; exact hb
      · exact ⟨by rw [hopts]; exact hb, h2⟩
  | radiusDragStart =>
      show RadiusInv (onRadiusHandlesMouseDown st).1
      unfold onRadiusHandlesMouseDown
      have h' : RadiusInv { st with radiusDragActive := true } := ⟨hb, hin⟩
      refine ⟨?_, onlyToggles_inv _ (hTogS HandleKind.radius) _ h'.2⟩
      rw [((hTogS HandleKind.radius) _).2.2.2.2.2.2.2.1]
      exact hb
  | radiusDragMove d =>
      show RadiusInv (onRadiusHandlesMouseMove st d).1
      unfold onRadiusHandlesMouseMove
      exact ⟨by simp [hb], setRadiusProp_inv st _ hb hin⟩
  | radiusDragEnd =>
      show RadiusInv (onRadiusHandlesMouseUpOrMapMouseOut st).1
      unfold onRadiusHandlesMouseUpOrMapMouseOut
      have h1 : RadiusInv { st with radiusDragActive := false } := ⟨hb, hin⟩
      have h2 := onlyToggles_inv _ (hTogR HandleKind.radius) _ h1.2
      have hopts := ((hTogR HandleKind.radius) { st with radiusDragActive := false }).2.2.2.2.2.2.2.1
      have hb2 : (selfBroadcast receiveResume HandleKind.radius
          { st with radiusDragActive := false }).options.minRadius ≤
          (selfBroadcast receiveResume HandleKind.radius
          { st with radiusDragActive := false }).options.maxRadius := by
        rw [hopts]; exact hb
      dsimp only
      split
      · refine ⟨?_, processEmit_inv _ _ (setRadiusProp_inv _ _ hb2 h2)⟩
        simp only [processEmit_options, setRadiusProp_options]
        rw [hopts]; exact hb
      · exact ⟨by rw [hopts]; exact hb, h2⟩
  | attachOp m z =>
      show RadiusInv (attachComplete st m z).1
      unfold attachComplete addCircleAssetsOnMap
      apply flushPending_radiusInv
      apply setZoomFn_radiusInv
      split <;> exact ⟨hb, hin⟩
  | zoomEndOp z =>
      exact setZoomFn_radiusInv st z ⟨hb, hin⟩

theorem runOps_radiusInv (st : CircleState) (ops : List Op) (h : RadiusInv st) :
    RadiusInv (runOps st ops).1 :=
  accumRun_preserve stepOp RadiusInv (fun s op => stepOp_radiusInv s op) ops st h

/-! ## Getter lemmas -/

@[simp] theorem activeRadius_processEmit (st : CircleState) (e : CircleEvent) :
    (processEmit st e).activeRadius = st.activeRadius := by
  unfold CircleState.activeRadius
  simp

@[simp] theorem activeRadius_setRadiusProp (st : CircleState) (r : ℚ) :
    (setRadiusProp st r).activeRadius = clampRadius st.options r := by
  unfold CircleState.activeRadius
  by_cases hd : st.radiusDragActive = true <;> simp [hd]

@[simp] theorem activeCenter_processEmit (st : CircleState) (e : CircleEvent) :
    (processEmit st e).activeCenter = st.activeCenter := by
  unfold CircleState.activeCenter
  simp

@[simp] theorem activeCenter_setCenterProp (st : CircleState) (c : ℚ × ℚ) :
    (setCenterProp st c).activeCenter = c := by
  unfold CircleState.activeCenter
  by_cases hd : st.centerDragActive = true <;> simp [hd]

/-! ## Concrete state evaluations -/

set_option maxHeartbeats 3200000 in
theorem baseCircle_eval :
    baseCircle =
      { instanceId := 0
        lastCenterLngLat := (0, 0)
        editCenterLngLat := (0, 0)
        currentCenterLngLat := (0, 0)
        lastRadius := 50
        editRadius := 50
        currentRadius := 50
        options := defaultOptions
        zoom := some 12
        circle := some ⟨(0, 0), 50, 64⟩
        handles := none
        centerDragActive := false
        radiusDragActive := false
        attachedMap := some 1
        pendingRendered := []
        centerHandleListenersBound := false
        radiusHandleListenersBound := false
        changedListenersBound := false
        broadcastBound := false } := by
  norm_num +decide [baseCircle, attachComplete, addCircleAssetsOnMap, setZoomFn, flushPending,
    accumRun, construct, updateCircle, stepsFormula, clampZoom, handleCalls, jsRound,
    CircleState.activeCenter, CircleState.activeRadius, defaultOptions]

set_option maxHeartbeats 3200000 in
theorem editCircle_eval :
    editCircle =
      { instanceId := 0
        lastCenterLngLat := (0, 0)
        editCenterLngLat := (0, 0)
        currentCenterLngLat := (0, 0)
        lastRadius := 50
        editRadius := 50
        currentRadius := 50
        options := editableOptions
        zoom := some 5
        circle := some ⟨(0, 0), 50, 64⟩
        handles := some (handleCalls (0, 0) 50)
        centerDragActive := false
        radiusDragActive := false
        attachedMap := some 1
        pendingRendered := []
        centerHandleListenersBound := true
        radiusHandleListenersBound := true
        changedListenersBound := true
        broadcastBound := true } := by
  norm_num +decide [editCircle, attachComplete, addCircleAssetsOnMap, setZoomFn, flushPending,
    accumRun, construct, updateCircle, stepsFormula, clampZoom, handleCalls, jsRound,
    CircleState.activeCenter, CircleState.activeRadius, editableOptions, defaultOptions]

set_option maxHeartbeats 3200000 in
theorem smallMaxCircle_eval :
    smallMaxCircle =
      { instanceId := 0
        lastCenterLngLat := (0, 0)
        editCenterLngLat := (0, 0)
        currentCenterLngLat := (0, 0)
        lastRadius := 100
        editRadius := 150
        currentRadius := 100
        options := optsSmallMax
        zoom := some 5
        circle := some ⟨(0, 0), 100, 64⟩
        handles := some (handleCalls (0, 0) 100)
        centerDragActive := false
        radiusDragActive := false
        attachedMap := some 1
        pendingRendered := []
        centerHandleListenersBound := true
        radiusHandleListenersBound := true
        changedListenersBound := true
        broadcastBound := true } := by
  norm_num +decide [smallMaxCircle, attachComplete, addCircleAssetsOnMap, setZoomFn, flushPending,
    accumRun, construct, updateCircle, stepsFormula, clampZoom, handleCalls, jsRound,
    CircleState.activeCenter, CircleState.activeRadius, optsSmallMax, setRadius,
    applyUpdateRadius, setRadiusProp, processEmit, clampRadius]

set_option maxHeartbeats 3200000 in
theorem c7state_eval :
    c7state =
      { instanceId := 0
        lastCenterLngLat := (0, 0)
        editCenterLngLat := (2, 2)
        currentCenterLngLat := (0, 0)
        lastRadius := 50
        editRadius := 50
        currentRadius := 50
        options := editableOptions
        zoom := some 5
        circle := some ⟨(0, 0), 50, 64⟩
        handles := some (handleCalls (2, 2) 50)
        centerDragActive := true
        radiusDragActive := false
        attachedMap := some 1
        pendingRendered := []
        centerHandleListenersBound := true
        radiusHandleListenersBound := false
        changedListenersBound := true
        broadcastBound := true } := by
  rw [c7state, editCircle_eval]
  norm_num +decide [runOps, accumRun, stepOp, onCenterHandleMouseDown, onCenterHandleMouseMove,
    selfBroadcast, receiveSuspend, onCenterHandleSuspendEvents, onRadiusHandlesSuspendEvents,
    setCenterProp, updateCircle, stepsFormula, clampZoom, handleCalls,
    CircleState.activeCenter, CircleState.activeRadius, editableOptions, defaultOptions]

/-! ## Claim C1 -/

/-- C1, counterexample: on an attached circle with default options
(`minRadius = 10`), `setRadius(10.4)` yields `getRadius() = 10`
(the argument is rounded before clamping), while
`clamp(10.4, 10, 1.1e6) = 10.4` — so `getRadius()` does *not* equal
`clamp(r, minRadius, maxRadius)` for `r = 10.4`. -/
theorem C1_counterexample :
    getRadius (setRadius baseCircle (52/5)).1 ≠ clampRadius defaultOptions (52/5) := by
  rw [baseCircle_eval]
  norm_num +decide [getRadius, setRadius, applyUpdateRadius, setRadiusProp, processEmit,
    updateCircle, stepsFormula, clampZoom, handleCalls, clampRadius, jsRound,
    CircleState.activeRadius, CircleState.activeCenter, defaultOptions]

/-- C1, amended: for every number `r`, `setRadius(r)` on an attached
circle results in `getRadius() == clamp(round(r), minRadius, maxRadius)`:
the requested radius is first rounded to whole meters (`Math.round`), and
the *rounded* value is what gets clamped. -/
theorem C1_amended (st : CircleState) (r : ℚ) (h : st.attachedMap.isSome = true) :
    getRadius (setRadius st r).1 = clampRadius st.options ((jsRound r : ℤ) : ℚ) := by
  unfold setRadius
  dsimp only
  rw [if_pos h]
  unfold applyUpdateRadius getRadius
  dsimp only
  split <;> simp

/-- Witness for `C1_amended` at the attached `baseCircle` and `r = 10.4`. -/
theorem C1_amended_witness :
    getRadius (setRadius baseCircle (52/5)).1 =
      clampRadius baseCircle.options ((jsRound (52/5) : ℤ) : ℚ) :=
  C1_amended baseCircle (52/5) (by rw [baseCircle_eval]; rfl)

/-! ## Claim C2 -/

/-- C2, counterexample: the constructor does not clamp — a circle
constructed with radius `5` under the default `minRadius = 10` starts with
both its committed and its edit radius at `5 < 10`, violating
"`minRadius ≤ radius` at all times, including immediately after
construction". -/
theorem C2_counterexample :
    (construct (0, 0) 5 defaultOptions).currentRadius < defaultOptions.minRadius ∧
    (construct (0, 0) 5 defaultOptions).editRadius < defaultOptions.minRadius := by
  norm_num [construct, jsRound, defaultOptions]

/-- C2, amended: *provided* the constructed radius (after rounding) already
lies within `[minRadius, maxRadius]` (and `minRadius ≤ maxRadius`), every
state reachable from the constructor through any sequence of public calls,
drags and attach/zoom operations keeps both the committed and the edit
radius within `[minRadius, maxRadius]`.  Construction itself performs no
clamping, so the invariant only holds from an in-bounds start. -/
theorem C2_amended (center : ℚ × ℚ) (r0 : ℚ) (opts : Options) (ops : List Op)
    (hb : opts.minRadius ≤ opts.maxRadius)
    (h1 : opts.minRadius ≤ ((jsRound r0 : ℤ) : ℚ))
    (h2 : ((jsRound r0 : ℤ) : ℚ) ≤ opts.maxRadius) :
    RadiusInBounds (runOps (construct center r0 opts) ops).1 := by
  have hinit : RadiusInv (construct center r0 opts) := by
    refine ⟨?_, ?_, ?_, ?_, ?_⟩ <;> simp [construct, RadiusInBounds, hb, h1, h2]
  exact (runOps_radiusInv _ ops hinit).2

/-- Witness for `C2_amended`: default options, radius `50`, and a radius
drag to `2000000` meters followed by its commit — all radii stay within
`[10, 1100000]`. -/
theorem C2_amended_witness :
    RadiusInBounds
      (runOps (construct (0, 0) 50 defaultOptions)
        [Op.radiusDragStart, Op.radiusDragMove 2000000, Op.radiusDragEnd]).1 :=
  C2_amended (0, 0) 50 defaultOptions _
    (by norm_num [defaultOptions])
    (by norm_num [jsRound, defaultOptions])
    (by norm_num [jsRound, defaultOptions])

/-! ## Claim C3 -/

theorem runOps_append (st : CircleState) (l1 l2 : List Op) :
    runOps st (l1 ++ l2) =
      ((runOps (runOps st l1).1 l2).1, (runOps st l1).2 ++ (runOps (runOps st l1).1 l2).2) :=
  accumRun_append stepOp st l1 l2

theorem runOps_singleton (st : CircleState) (op : Op) : runOps st [op] = stepOp st op := by
  unfold runOps
  rw [accumRun_cons, accumRun_nil]
  simp

theorem runOps_cons (st : CircleState) (op : Op) (ops : List Op) :
    runOps st (op :: ops) =
      ((runOps (stepOp st op).1 ops).1, (stepOp st op).2 ++ (runOps (stepOp st op).1 ops).2) :=
  accumRun_cons stepOp st op ops

/-- The event emission of a completed radius-drag end in a state whose
radius-drag is active: `'radiuschanged'` fires exactly when the edit
radius held by the drag differs from the `lastRadius` snapshot. -/
theorem radiusDragEnd_events (st : CircleState) (h : st.radiusDragActive = true) :
    (onRadiusHandlesMouseUpOrMapMouseOut st).2 =
      if st.editRadius ≠ st.lastRadius then [CircleEvent.radiuschanged] else [] := by
  unfold onRadiusHandlesMouseUpOrMapMouseOut
  dsimp only
  have hact : st.activeRadius = st.editRadius := by
    unfold CircleState.activeRadius
    simp [h]
  have hlast : (selfBroadcast receiveResume HandleKind.radius
      { st with radiusDragActive := false }).lastRadius = st.lastRadius :=
    ((selfBroadcast_onlyToggles _ receiveResume_onlyToggles _) _).2.2.2.2.1
  rw [hact, hlast]
  by_cases hc : st.editRadius ≠ st.lastRadius
  · rw [if_pos hc, if_pos hc]
  · rw [if_neg hc, if_neg hc]

/-- Pointer moves during a radius-drag emit nothing and keep the drag flag
and the `lastRadius` snapshot. -/
theorem runOps_radiusMoves (moves : List ℚ) :
    ∀ st : CircleState,
      (runOps st (moves.map Op.radiusDragMove)).1.radiusDragActive = st.radiusDragActive ∧
      (runOps st (moves.map Op.radiusDragMove)).1.lastRadius = st.lastRadius ∧
      (runOps st (moves.map Op.radiusDragMove)).2 = [] := by
  induction moves with
  | nil => intro st; exact ⟨rfl, rfl, rfl⟩
  | cons m ms ih =>
      intro st
      obtain ⟨ih1, ih2, ih3⟩ := ih (stepOp st (Op.radiusDragMove m)).1
      rw [List.map_cons, runOps_cons]
      refine ⟨?_, ?_, ?_⟩
      · show (runOps _ _).1.radiusDragActive = _
        rw [ih1]
        simp [stepOp, onRadiusHandlesMouseMove]
      · show (runOps _ _).1.lastRadius = _
        rw [ih2]
        simp [stepOp, onRadiusHandlesMouseMove]
      · show (stepOp st (Op.radiusDragMove m)).2 ++ (runOps _ _).2 = []
        rw [ih3]
        simp [stepOp, onRadiusHandlesMouseMove]

/-- C3, amended: a completed radius-drag (mouse-down, any number of
pointer moves, then mouse-up or pointer-out of the canvas) emits
`radiuschanged` at most once, and emits it exactly when the *edit radius
held by the drag at the moment it ends* differs from the `lastRadius`
snapshot recorded before the drag.  (The original claim's comparison —
"post-drag radius differs from the pre-drag committed radius" — coincides
with this whenever the pre-drag state has its committed, edit and
snapshot radii equal, but not in general, because the edit radius can be
stale and the committed radius can differ from the snapshot after an
out-of-range `setRadius`.) -/
theorem C3_amended (st : CircleState) (moves : List ℚ) :
    (radiusDragTrace st moves).2.length ≤ 1 ∧
    (radiusDragTrace st moves).2 =
      (if radiusDragEndValue st moves ≠ st.lastRadius then [CircleEvent.radiuschanged] else []) := by
  have hstart : (stepOp st Op.radiusDragStart).1.radiusDragActive = true ∧
      (stepOp st Op.radiusDragStart).1.lastRadius = st.lastRadius ∧
      (stepOp st Op.radiusDragStart).2 = [] := by
    have htog := (selfBroadcast_onlyToggles _ receiveSuspend_onlyToggles HandleKind.radius)
      { st with radiusDragActive := true }
    exact ⟨by simpa [stepOp, onRadiusHandlesMouseDown] using htog.2.2.2.2.2.2.2.2.2.2.2.2.1,
      by simpa [stepOp, onRadiusHandlesMouseDown] using htog.2.2.2.2.1, rfl⟩
  obtain ⟨hs1, hs2, hs3⟩ := hstart
  set s1 := (stepOp st Op.radiusDragStart).1 with hs1def
  obtain ⟨hm1, hm2, hm3⟩ := runOps_radiusMoves moves s1
  set s2 := (runOps s1 (moves.map Op.radiusDragMove)).1 with hs2def
  have hs2active : s2.radiusDragActive = true := by rw [hm1, hs1]
  have hs2last : s2.lastRadius = st.lastRadius := by rw [hm2, hs2]
  have hval : radiusDragEndValue st moves = s2.editRadius := by
    unfold radiusDragEndValue
    have : runOps st ([Op.radiusDragStart] ++ moves.map Op.radiusDragMove) =
        ((runOps s1 (moves.map Op.radiusDragMove)).1,
          (runOps st [Op.radiusDragStart]).2 ++ (runOps s1 (moves.map Op.radiusDragMove)).2) := by
      rw [runOps_append, runOps_singleton]
    rw [this]
    unfold CircleState.activeRadius
    rw [← hs2def, hs2active]
    simp
  have htrace : (radiusDragTrace st moves).2 =
      (onRadiusHandlesMouseUpOrMapMouseOut s2).2 := by
    unfold radiusDragTrace
    rw [show [Op.radiusDragStart] ++ moves.map Op.radiusDragMove ++ [Op.radiusDragEnd] =
      ([Op.radiusDragStart] ++ moves.map Op.radiusDragMove) ++ [Op.radiusDragEnd] from rfl]
    rw [runOps_append, runOps_append]
    rw [runOps_singleton st Op.radiusDragStart]
    simp only [hs3]
    rw [show (runOps (stepOp st Op.radiusDragStart).1 (moves.map Op.radiusDragMove)).1 = s2 from rfl]
    rw [runOps_singleton s2 Op.radiusDragEnd]
    simp only [hm3]
    simp [stepOp]
  rw [htrace, radiusDragEnd_events s2 hs2active, hval, hs2last]
  by_cases hc : s2.editRadius ≠ st.lastRadius
  · rw [if_pos hc]; exact ⟨by simp, rfl⟩
  · rw [if_neg hc]; exact ⟨by simp, rfl⟩

/-- C3, counterexample: from `smallMaxCircle` (committed radius `100`,
snapshot `100`, stale edit radius `150` — reached through an ordinary
construct/attach/`setRadius` sequence), an immediate mouse-down +
mouse-up radius-drag emits `radiuschanged` even though the post-drag
radius (`100`) equals the committed radius recorded before the drag
(`100`): the drag "ends at the starting radius" yet fires the event. -/
theorem C3_counterexample :
    getRadius smallMaxCircle = smallMaxCircle.lastRadius ∧
    getRadius (radiusDragTrace smallMaxCircle []).1 = getRadius smallMaxCircle ∧
    (radiusDragTrace smallMaxCircle []).2 = [CircleEvent.radiuschanged] := by
  rw [smallMaxCircle_eval]
  norm_num +decide [radiusDragTrace, runOps, accumRun, stepOp, onRadiusHandlesMouseDown,
    onRadiusHandlesMouseUpOrMapMouseOut, selfBroadcast, receiveSuspend, receiveResume,
    onCenterHandleSuspendEvents, onRadiusHandlesSuspendEvents, onCenterHandleResumeEvents,
    onRadiusHandlesResumeEvents, setRadiusProp, processEmit, updateCircle, stepsFormula,
    clampZoom, handleCalls, clampRadius, getRadius, CircleState.activeRadius,
    CircleState.activeCenter, optsSmallMax]

/-! ## Claim C4 -/

/-- C4, evaluation at the failing input: on the attached editable circle
centered at `(lng 0, lat 0)`, `setCenter` to `(lng 0, lat 1)` — a change
in the latitude alone — commits the new center `(0, 1)` while the
snapshot is still `(0, 0)`, yet emits *no* `centerchanged` event: the
`setCenter` emission condition requires *both* coordinates to differ
(`&&`, `lib/main.ts` line 367).  The same single-coordinate change
committed through the center-drag path (whose condition uses `||`,
`lib/main.ts` line 826) does emit the event, exposing the `&&` as a slip. -/
theorem C4_theorem :
    (setCenter editCircle (0, 1)).2 = [] ∧
    (setCenter editCircle (0, 1)).1.currentCenterLngLat = (0, 1) ∧
    (setCenter editCircle (0, 1)).1.lastCenterLngLat = (0, 0) ∧
    (runOps editCircle [Op.centerDragStart, Op.centerDragMove (0, 1), Op.centerDragEnd]).2 =
      [CircleEvent.centerchanged] := by
  rw [editCircle_eval]
  norm_num +decide [setCenter, applyUpdateCenter, setCenterProp, processEmit, updateCircle,
    stepsFormula, clampZoom, handleCalls, runOps, accumRun, stepOp, onCenterHandleMouseDown,
    onCenterHandleMouseMove, onCenterHandleMouseUpOrMapMouseOut, selfBroadcast, receiveSuspend,
    receiveResume, onCenterHandleSuspendEvents, onRadiusHandlesSuspendEvents,
    onCenterHandleResumeEvents, onRadiusHandlesResumeEvents, CircleState.activeCenter,
    CircleState.activeRadius, editableOptions, defaultOptions]

/-! ## Claim C5 -/

theorem receiveSuspend_instanceId (origin : ℕ) (kind : HandleKind) (c : CircleState) :
    (receiveSuspend origin kind c).instanceId = c.instanceId :=
  (receiveSuspend_onlyToggles origin kind c).1

theorem receiveResume_instanceId (origin : ℕ) (kind : HandleKind) (c : CircleState) :
    (receiveResume origin kind c).instanceId = c.instanceId :=
  (receiveResume_onlyToggles origin kind c).1

/-- Every circle other than the drag's origin unbinds *both* its
handle-listener sets on the suspend broadcast, whatever the handle kind. -/
theorem receiveSuspend_unbinds (origin : ℕ) (kind : HandleKind) (c : CircleState)
    (h : c.instanceId ≠ origin) :
    (receiveSuspend origin kind c).centerHandleListenersBound = false ∧
    (receiveSuspend origin kind c).radiusHandleListenersBound = false := by
  unfold receiveSuspend onCenterHandleSuspendEvents onRadiusHandlesSuspendEvents
  simp [h]

/-- Every circle other than the drag's origin rebinds both its
handle-listener sets on the resume broadcast. -/
theorem receiveResume_binds (origin : ℕ) (kind : HandleKind) (c : CircleState)
    (h : c.instanceId ≠ origin) :
    (receiveResume origin kind c).centerHandleListenersBound = true ∧
    (receiveResume origin kind c).radiusHandleListenersBound = true := by
  unfold receiveResume onCenterHandleResumeEvents onRadiusHandlesResumeEvents
  simp [h]

theorem applyMove_keeps (c : CircleState) (i : MoveInp) :
    (applyMove c i).instanceId = c.instanceId ∧
    (applyMove c i).centerHandleListenersBound = c.centerHandleListenersBound ∧
    (applyMove c i).radiusHandleListenersBound = c.radiusHandleListenersBound := by
  cases i <;> simp [applyMove]

/-- Drag moves routed through the world never change any member's
instance id or listener bindings. -/
theorem mem_worldMoves (origin : ℕ) (moves : List MoveInp) :
    ∀ (w : List CircleState) (c : CircleState), c ∈ worldMoves w origin moves →
      ∃ c0 ∈ w, c.instanceId = c0.instanceId ∧
        c.centerHandleListenersBound = c0.centerHandleListenersBound ∧
        c.radiusHandleListenersBound = c0.radiusHandleListenersBound := by
  induction moves with
  | nil => intro w c hc; exact ⟨c, hc, rfl, rfl, rfl⟩
  | cons i ms ih =>
      intro w c hc
      obtain ⟨c1, hc1, hid, hcb, hrb⟩ := ih (worldMove w origin i) c hc
      obtain ⟨c0, hc0, hc1eq⟩ := List.mem_map.mp hc1
      refine ⟨c0, hc0, ?_, ?_, ?_⟩
      · rw [hid, ← hc1eq]
        split
        · exact (applyMove_keeps c0 i).1
        · rfl
      · rw [hcb, ← hc1eq]
        split
        · exact (applyMove_keeps c0 i).2.1
        · rfl
      · rw [hrb, ← hc1eq]
        split
        · exact (applyMove_keeps c0 i).2.2
        · rfl

/-- C5: when any registered editable circle broadcasts the suspension that
starts a handle drag, every *other* registered circle has both its
handle-listener sets unbound, and they stay unbound through every prefix
of the drag's pointer moves; the resume broadcast at drag end binds them
again. -/
theorem C5_theorem (w : List CircleState) (origin : ℕ) (kind : HandleKind)
    (moves : List MoveInp) (k : ℕ) (c : CircleState) :
    (c ∈ worldMoves (worldSuspend w origin kind) origin (moves.take k) →
      c.instanceId ≠ origin →
      c.centerHandleListenersBound = false ∧ c.radiusHandleListenersBound = false) ∧
    (c ∈ worldResume (worldMoves (worldSuspend w origin kind) origin moves) origin kind →
      c.instanceId ≠ origin →
      c.centerHandleListenersBound = true ∧ c.radiusHandleListenersBound = true) := by
  constructor
  · intro hc hne
    obtain ⟨c1, hc1, hid, hcb, hrb⟩ := mem_worldMoves origin (moves.take k) _ c hc
    obtain ⟨c0, hc0, hc1eq⟩ := List.mem_map.mp hc1
    have hne0 : c0.instanceId ≠ origin := by
      rw [← receiveSuspend_instanceId origin kind c0, hc1eq, ← hid]
      exact hne
    obtain ⟨hu1, hu2⟩ := receiveSuspend_unbinds origin kind c0 hne0
    rw [hcb, hrb, ← hc1eq]
    exact ⟨hu1, hu2⟩
  · intro hc hne
    obtain ⟨c1, hc1, hc1eq⟩ := List.mem_map.mp hc
    have hne1 : c1.instanceId ≠ origin := by
      rw [← receiveResume_instanceId origin kind c1, hc1eq]
      exact hne
    rw [← hc1eq]
    exact receiveResume_binds origin kind c1 hne1

/-- Witness for `C5_theorem`: two registered editable circles `1` and `2`;
circle `1` starts a center drag — circle `2`'s listeners are unbound after
the suspend broadcast and bound again after the resume broadcast. -/
theorem C5_theorem_witness :
    ((receiveSuspend 1 HandleKind.center worldCircleB).centerHandleListenersBound = false ∧
      (receiveSuspend 1 HandleKind.center worldCircleB).radiusHandleListenersBound = false) ∧
    ((receiveResume 1 HandleKind.center
        (receiveSuspend 1 HandleKind.center worldCircleB)).centerHandleListenersBound = true ∧
      (receiveResume 1 HandleKind.center
        (receiveSuspend 1 HandleKind.center worldCircleB)).radiusHandleListenersBound = true) := by
  have hid : (receiveSuspend 1 HandleKind.center worldCircleB).instanceId ≠ 1 := by
    rw [receiveSuspend_instanceId]
    norm_num [worldCircleB, worldCircleA]
  have hid2 : (receiveResume 1 HandleKind.center
      (receiveSuspend 1 HandleKind.center worldCircleB)).instanceId ≠ 1 := by
    rw [receiveResume_instanceId, receiveSuspend_instanceId]
    norm_num [worldCircleB, worldCircleA]
  constructor
  · exact (C5_theorem [worldCircleA, worldCircleB] 1 HandleKind.center [] 0
      (receiveSuspend 1 HandleKind.center worldCircleB)).1
      (by simp [worldMoves, worldSuspend]) hid
  · exact (C5_theorem [worldCircleA, worldCircleB] 1 HandleKind.center [] 0
      (receiveResume 1 HandleKind.center (receiveSuspend 1 HandleKind.center worldCircleB))).2
      (by simp [worldMoves, worldResume, worldSuspend]) hid2

/-! ## Claim C6 -/

/-- C6, counterexample to monotonicity in the radius: with `refineStroke`
on and zoom `1`, radius `19044` gives `⌊√4761⌋ = 69` and `69 XOR 2 = 71`
steps, while the *larger* radius `19600` gives `⌊√4900⌋ = 70` and
`70 XOR 2 = 68` steps — the step count *decreases* as the radius grows,
because the `^` in the source is bitwise XOR, not exponentiation. -/
theorem C6_counterexample :
    (19044 : ℚ) < 19600 ∧
    stepsFormula 19600 (some 1) true < stepsFormula 19044 (some 1) true := by
  have hs1 : Nat.sqrt 4761 = 69 :=
    le_antisymm (Nat.le_of_lt_succ (Nat.sqrt_lt.mpr (by norm_num)))
      (Nat.le_sqrt.mpr (by norm_num))
  have hs2 : Nat.sqrt 4900 = 70 :=
    le_antisymm (Nat.le_of_lt_succ (Nat.sqrt_lt.mpr (by norm_num)))
      (Nat.le_sqrt.mpr (by norm_num))
  have ht1 : Int.toNat 4761 = 4761 := rfl
  have ht2 : Int.toNat 4900 = 4900 := rfl
  have h1 : stepsFormula 19044 (some 1) true = 71 := by
    norm_num [stepsFormula, clampZoom, jsTrunc, ratSqrtFloor, jsToInt32, jsXor2, ht1, hs1, max_def]
  have h2 : stepsFormula 19600 (some 1) true = 68 := by
    norm_num [stepsFormula, clampZoom, jsTrunc, ratSqrtFloor, jsToInt32, jsXor2, ht2, hs2, max_def]
  rw [h1, h2]
  norm_num

/-- C6, amended: the step count is never below 64 and the zoom entering it
is clamped to at least 0.1; with `refineStroke` off it is the constant 64.
With `refineStroke` on, however, the computed value
`max(ToInt32(√(trunc(radius·0.25))·zoom) XOR 2, 64)` is *not* monotone in
radius or zoom — the `^ 2` of the reference expression is JavaScript's
bitwise XOR. -/
theorem C6_amended (r : ℚ) (z : Option ℚ) :
    stepsFormula r z false = 64 ∧ 64 ≤ stepsFormula r z true ∧ 1/10 ≤ clampZoom z := by
  refine ⟨rfl, le_max_right _ _, ?_⟩
  unfold clampZoom
  match z with
  | none => exact le_refl _
  | some z =>
      dsimp only
      split
      · exact le_refl _
      · next hz => exact le_of_lt (lt_of_not_le hz)

/-! ## Claim C7 -/

@[simp] theorem processEmit_circle (st : CircleState) (e : CircleEvent) :
    (processEmit st e).circle = st.circle := by
  unfold processEmit; split <;> [skip; rfl]; split <;> rfl

@[simp] theorem processEmit_handles (st : CircleState) (e : CircleEvent) :
    (processEmit st e).handles = st.handles := by
  unfold processEmit; split <;> [skip; rfl]; split <;> rfl

/-- Whenever the polygon-skip guard does not apply, `updateCircle` stores
the polygon computed from the active center, radius and current zoom. -/
theorem updateCircle_circle_eq (st : CircleState)
    (h : ¬(st.centerDragActive = true ∧ st.activeRadius < 10000)) :
    (updateCircle st).circle =
      some ⟨st.activeCenter, st.activeRadius,
        stepsFormula st.activeRadius st.zoom st.options.refineStroke⟩ := by
  unfold updateCircle
  dsimp only
  rw [if_pos h]

/-- When editable, `updateCircle` always stores the four handle points
computed from the active center and radius. -/
theorem updateCircle_handles_eq (st : CircleState) (h : st.options.editable = true) :
    (updateCircle st).handles = some (handleCalls st.activeCenter st.activeRadius) := by
  unfold updateCircle
  dsimp only
  rw [if_pos h]

/-- Committing a center through the setter outside any drag recomputes
the polygon from the committed center and radius. -/
theorem setCenterProp_circle_notDrag (st : CircleState) (c : ℚ × ℚ)
    (hcd : st.centerDragActive = false) (hrd : st.radiusDragActive = false) :
    (setCenterProp st c).circle =
      some ⟨c, st.currentRadius,
        stepsFormula st.currentRadius st.zoom st.options.refineStroke⟩ := by
  unfold setCenterProp
  rw [if_neg (by simp [hcd])]
  rw [updateCircle_circle_eq _ (by simp [hcd])]
  simp [CircleState.activeCenter, CircleState.activeRadius, hcd, hrd]

/-- C7, amended: after any recompute cycle in which the skip guard (an
active center-drag with active radius below 10000) does not apply, the
stored polygon matches the active center/radius exactly, and the handle
points always do when the circle is editable; and a committing drag-end
recomputes the polygon from the final committed center and the committed
radius, so the skipped recomputes never affect the committed geometry.
During a center-drag below the radius threshold, however, the polygon may
stay stale for arbitrarily many recompute cycles (see the
counterexample), not at most one. -/
theorem C7_amended (st : CircleState) :
    (¬(st.centerDragActive = true ∧ st.activeRadius < 10000) →
      (updateCircle st).circle =
        some ⟨st.activeCenter, st.activeRadius,
          stepsFormula st.activeRadius st.zoom st.options.refineStroke⟩) ∧
    (st.options.editable = true →
      (updateCircle st).handles = some (handleCalls st.activeCenter st.activeRadius)) ∧
    (st.centerDragActive = true → st.radiusDragActive = false →
      (st.editCenterLngLat.1 ≠ st.lastCenterLngLat.1 ∨
        st.editCenterLngLat.2 ≠ st.lastCenterLngLat.2) →
      (stepOp st Op.centerDragEnd).1.currentCenterLngLat = st.editCenterLngLat ∧
      (stepOp st Op.centerDragEnd).1.circle =
        some ⟨st.editCenterLngLat, st.currentRadius,
          stepsFormula st.currentRadius st.zoom st.options.refineStroke⟩) := by
  refine ⟨updateCircle_circle_eq st, updateCircle_handles_eq st, ?_⟩
  intro hcd hrd hne
  show (onCenterHandleMouseUpOrMapMouseOut st).1.currentCenterLngLat = _ ∧
    (onCenterHandleMouseUpOrMapMouseOut st).1.circle = _
  unfold onCenterHandleMouseUpOrMapMouseOut
  dsimp only
  obtain ⟨t1, t2, t3, t4, t5, t6, t7, t8, t9, t10, t11, t12, t13, t14, t15, t16, t17⟩ :=
    (selfBroadcast_onlyToggles _ receiveResume_onlyToggles HandleKind.center)
      { st with centerDragActive := false }
  have hact : st.activeCenter = st.editCenterLngLat := by
    simp [CircleState.activeCenter, hcd]
  have hlast : (selfBroadcast receiveResume HandleKind.center
      { st with centerDragActive := false }).lastCenterLngLat = st.lastCenterLngLat := t2
  have hcd2 : (selfBroadcast receiveResume HandleKind.center
      { st with centerDragActive := false }).centerDragActive = false := t12
  have hrd2 : (selfBroadcast receiveResume HandleKind.center
      { st with centerDragActive := false }).radiusDragActive = false := by rw [t13]; exact hrd
  rw [hact, hlast, if_pos hne]
  constructor
  · show (processEmit _ _).currentCenterLngLat = _
    rw [processEmit_currentCenterLngLat, setCenterProp_currentCenterLngLat, hcd2]
    simp
  · show (processEmit _ _).circle = _
    rw [processEmit_circle, setCenterProp_circle_notDrag _ _ hcd2 hrd2, t7, t9, t8]

/-- Witness for `C7_amended`: evaluated at `editCircle` (no drag: parts
one and two) and at the mid-drag `c7state` (part three, where the drag
ends and commits `(2, 2)`). -/
theorem C7_amended_witness :
    ((updateCircle editCircle).circle =
      some ⟨editCircle.activeCenter, editCircle.activeRadius,
        stepsFormula editCircle.activeRadius editCircle.zoom editCircle.options.refineStroke⟩) ∧
    ((updateCircle editCircle).handles =
      some (handleCalls editCircle.activeCenter editCircle.activeRadius)) ∧
    ((stepOp c7state Op.centerDragEnd).1.currentCenterLngLat = c7state.editCenterLngLat ∧
      (stepOp c7state Op.centerDragEnd).1.circle =
        some ⟨c7state.editCenterLngLat, c7state.currentRadius,
          stepsFormula c7state.currentRadius c7state.zoom c7state.options.refineStroke⟩) := by
  refine ⟨(C7_amended editCircle).1 ?_, (C7_amended editCircle).2.1 ?_,
    (C7_amended c7state).2.2 ?_ ?_ ?_⟩
  · rw [editCircle_eval]; simp
  · rw [editCircle_eval]; norm_num [editableOptions, defaultOptions]
  · rw [c7state_eval]
  · rw [c7state_eval]
  · rw [c7state_eval]; norm_num

/-- C7, counterexample: after a center-drag with two pointer moves on a
radius-50 circle, the stored polygon is still the one computed from the
pre-drag center `(0, 0)`, while the active center is `(2, 2)` and the
previous recompute cycle's active center was `(1, 1)` — the polygon is
stale by two recompute cycles, and matches neither the current nor the
previous active geometry. -/
theorem C7_counterexample :
    c7state.circle = some ⟨(0, 0), 50, 64⟩ ∧
    getCenter c7state = (2, 2) ∧
    ((0, 0) : ℚ × ℚ) ≠ (2, 2) ∧ ((0, 0) : ℚ × ℚ) ≠ (1, 1) := by
  rw [c7state_eval]
  norm_num [getCenter, CircleState.activeCenter, Prod.ext_iff]

/-! ## Claim C8 -/

/-- C8, counterexample: `addTo` in the TypeScript implementation does
*not* throw when the circle is already attached to a different map — it
silently overwrites the attachment: from `baseCircle` (attached to map
`1`), `addTo(map 2)` succeeds and re-points the circle at map `2`. -/
theorem C8_counterexample :
    addTo_ts baseCircle (some 2) = Except.ok { baseCircle with attachedMap := some 2 } ∧
    baseCircle.attachedMap = some 1 ∧
    ({ baseCircle with attachedMap := some 2 }).attachedMap ≠ baseCircle.attachedMap := by
  refine ⟨rfl, ?_, ?_⟩
  · rw [baseCircle_eval]
  · rw [baseCircle_eval]; simp

/-- C8, amended: only the legacy JavaScript implementation's `map`
property setter guards re-assignment — it throws
`TypeError('MapboxCircle.map reassignment.')` whenever a non-null map is
assigned while one is already attached (leaving the attachment
unchanged, as the throw precedes any assignment).  The TypeScript
implementation's `addTo` throws only on an `undefined` map argument and
otherwise re-assigns the attachment unconditionally. -/
theorem C8_amended :
    (∀ a b : ℕ, mainjs_setMap (some a) (some b) =
      Except.error "MapboxCircle.map reassignment.") ∧
    (∀ st : CircleState, addTo_ts st none = Except.error "Map is undefined.") ∧
    (∀ (st : CircleState) (k : ℕ),
      addTo_ts st (some k) = Except.ok { st with attachedMap := some k }) := by
  refine ⟨?_, fun st => rfl, fun st k => rfl⟩
  intro a b
  unfold mainjs_setMap
  rw [if_neg]
  simp

/-! ## Claim C9 -/

@[simp] theorem setZoomFn_pendingRendered (st : CircleState) (z : ℚ) :
    (setZoomFn st z).pendingRendered = st.pendingRendered := by
  unfold setZoomFn; dsimp only; split <;> simp

@[simp] theorem setZoomFn_options (st : CircleState) (z : ℚ) :
    (setZoomFn st z).options = st.options := by
  unfold setZoomFn; dsimp only; split <;> simp

@[simp] theorem setZoomFn_currentRadius (st : CircleState) (z : ℚ) :
    (setZoomFn st z).currentRadius = st.currentRadius := by
  unfold setZoomFn; dsimp only; split <;> simp

@[simp] theorem setZoomFn_editRadius (st : CircleState) (z : ℚ) :
    (setZoomFn st z).editRadius = st.editRadius := by
  unfold setZoomFn; dsimp only; split <;> simp

@[simp] theorem setZoomFn_lastRadius (st : CircleState) (z : ℚ) :
    (setZoomFn st z).lastRadius = st.lastRadius := by
  unfold setZoomFn; dsimp only; split <;> simp

@[simp] theorem setZoomFn_radiusDragActive (st : CircleState) (z : ℚ) :
    (setZoomFn st z).radiusDragActive = st.radiusDragActive := by
  unfold setZoomFn; dsimp only; split <;> simp

@[simp] theorem setZoomFn_centerDragActive (st : CircleState) (z : ℚ) :
    (setZoomFn st z).centerDragActive = st.centerDragActive := by
  unfold setZoomFn; dsimp only; split <;> simp

@[simp] theorem setZoomFn_currentCenterLngLat (st : CircleState) (z : ℚ) :
    (setZoomFn st z).currentCenterLngLat = st.currentCenterLngLat := by
  unfold setZoomFn; dsimp only; split <;> simp

@[simp] theorem setZoomFn_attachedMap (st : CircleState) (z : ℚ) :
    (setZoomFn st z).attachedMap = st.attachedMap := by
  unfold setZoomFn; dsimp only; split <;> simp

@[simp] theorem applyUpdateRadius_currentRadius_eq (st : CircleState) (n : ℤ) :
    (applyUpdateRadius st n).1.currentRadius = (setRadiusProp st (n : ℚ)).currentRadius := by
  unfold applyUpdateRadius; dsimp only; split <;> simp

@[simp] theorem applyUpdateRadius_pendingRendered (st : CircleState) (n : ℤ) :
    (applyUpdateRadius st n).1.pendingRendered = st.pendingRendered := by
  unfold applyUpdateRadius; dsimp only; split <;> simp

@[simp] theorem applyUpdateCenter_pendingRendered (st : CircleState) (pos : ℚ × ℚ) :
    (applyUpdateCenter st pos).1.pendingRendered = st.pendingRendered := by
  unfold applyUpdateCenter; dsimp only; split <;> simp

@[simp] theorem applyPendingMutation_pendingRendered (st : CircleState) (p : PendingMutation) :
    (applyPendingMutation st p).1.pendingRendered = st.pendingRendered := by
  cases p <;> simp [applyPendingMutation]

/-- Flushing the `'rendered'` queue always leaves it empty: the one-shot
listeners are removed as they run. -/
theorem flushPending_pendingRendered (st : CircleState) :
    (flushPending st).1.pendingRendered = [] := by
  unfold flushPending
  apply accumRun_preserve applyPendingMutation (fun s => s.pendingRendered = [])
  · intro s p hs
    rw [applyPendingMutation_pendingRendered]
    exact hs
  · rfl

theorem attachComplete_pendingRendered (st : CircleState) (m : ℕ) (z : ℚ) :
    (attachComplete st m z).1.pendingRendered = [] := by
  unfold attachComplete addCircleAssetsOnMap
  dsimp only
  exact flushPending_pendingRendered _

/-- Completing an attach with a one-element radius queue applies exactly
that mutation: the committed radius becomes the clamped queued value. -/
theorem attachComplete_radiusPending (st : CircleState) (n : ℤ) (m : ℕ) (z : ℚ)
    (hrd : st.radiusDragActive = false)
    (hpend : st.pendingRendered = [PendingMutation.setRadiusP n]) :
    (attachComplete st m z).1.currentRadius = clampRadius st.options (n : ℚ) := by
  unfold attachComplete addCircleAssetsOnMap flushPending
  dsimp only
  by_cases he : st.options.editable = true <;>
    simp [he, hpend, accumRun_cons, accumRun_nil, applyPendingMutation, hrd]

@[simp] theorem applyUpdateCenter_currentCenterLngLat_eq (st : CircleState) (pos : ℚ × ℚ) :
    (applyUpdateCenter st pos).1.currentCenterLngLat =
      (setCenterProp st pos).currentCenterLngLat := by
  unfold applyUpdateCenter; dsimp only; split <;> simp

/-- Completing an attach with a one-element center queue applies exactly
that mutation: the committed center becomes the queued position. -/
theorem attachComplete_centerPending (st : CircleState) (pos : ℚ × ℚ) (m : ℕ) (z : ℚ)
    (hcd : st.centerDragActive = false)
    (hpend : st.pendingRendered = [PendingMutation.setCenterP pos]) :
    (attachComplete st m z).1.currentCenterLngLat = pos := by
  unfold attachComplete addCircleAssetsOnMap flushPending
  dsimp only
  by_cases he : st.options.editable = true <;>
    simp [he, hpend, accumRun_cons, accumRun_nil, applyPendingMutation, hcd]

/-- Completing an attach with an empty queue leaves the committed radius
untouched. -/
theorem attachComplete_noPending (st : CircleState) (m : ℕ) (z : ℚ)
    (hpend : st.pendingRendered = []) :
    (attachComplete st m z).1.currentRadius = st.currentRadius := by
  unfold attachComplete addCircleAssetsOnMap flushPending
  dsimp only
  by_cases he : st.options.editable = true <;>
    simp [he, hpend, accumRun_nil]

/-- Completing an attach with an empty queue leaves the committed center
untouched. -/
theorem attachComplete_noPending_center (st : CircleState) (m : ℕ) (z : ℚ)
    (hpend : st.pendingRendered = []) :
    (attachComplete st m z).1.currentCenterLngLat = st.currentCenterLngLat := by
  unfold attachComplete addCircleAssetsOnMap flushPending
  dsimp only
  by_cases he : st.options.editable = true <;>
    simp [he, hpend, accumRun_nil]

/-- C9: `setRadius`/`setCenter` on a circle not yet attached emit nothing
and leave the committed radius and center untouched; each mutation is
queued as a one-shot `'rendered'` listener; the first completed attach
applies the queued mutation exactly once — the committed radius becomes
the clamped rounded request, the committed center the requested position
— after which the queue is empty, and a subsequent attach applies
nothing further to either. -/
theorem C9_theorem (st : CircleState) (r : ℚ) (pos : ℚ × ℚ) (m : ℕ) (z : ℚ)
    (hmap : st.attachedMap = none) (hrd : st.radiusDragActive = false)
    (hcd : st.centerDragActive = false) (hpend : st.pendingRendered = []) :
    (setRadius st r).2 = [] ∧
    (setRadius st r).1.currentRadius = st.currentRadius ∧
    (setRadius st r).1.editRadius = st.editRadius ∧
    (setRadius st r).1.pendingRendered = [PendingMutation.setRadiusP (jsRound r)] ∧
    (setCenter st pos).2 = [] ∧
    (setCenter st pos).1.currentCenterLngLat = st.currentCenterLngLat ∧
    (setCenter st pos).1.pendingRendered = [PendingMutation.setCenterP pos] ∧
    (attachComplete (setRadius st r).1 m z).1.currentRadius =
      clampRadius st.options ((jsRound r : ℤ) : ℚ) ∧
    (attachComplete (setRadius st r).1 m z).1.pendingRendered = [] ∧
    (attachComplete (attachComplete (setRadius st r).1 m z).1 m z).1.currentRadius =
      (attachComplete (setRadius st r).1 m z).1.currentRadius ∧
    (attachComplete (setCenter st pos).1 m z).1.currentCenterLngLat = pos ∧
    (attachComplete (setCenter st pos).1 m z).1.pendingRendered = [] ∧
    (attachComplete (attachComplete (setCenter st pos).1 m z).1 m z).1.currentCenterLngLat =
      (attachComplete (setCenter st pos).1 m z).1.currentCenterLngLat := by
  have hq : setRadius st r = ({ st with pendingRendered := [PendingMutation.setRadiusP (jsRound r)] }, []) := by
    simp [setRadius, hmap, hpend]
  have hqc : setCenter st pos = ({ st with pendingRendered := [PendingMutation.setCenterP pos] }, []) := by
    simp [setCenter, hmap, hpend]
  rw [hq, hqc]
  refine ⟨rfl, rfl, rfl, rfl, rfl, rfl, rfl, ?_, ?_, ?_, ?_, ?_, ?_⟩
  · exact attachComplete_radiusPending _ (jsRound r) m z hrd rfl
  · exact attachComplete_pendingRendered _ _ _
  · exact attachComplete_noPending _ m z (attachComplete_pendingRendered _ _ _)
  · exact attachComplete_centerPending _ pos m z hcd rfl
  · exact attachComplete_pendingRendered _ _ _
  · exact attachComplete_noPending_center _ m z (attachComplete_pendingRendered _ _ _)

/-- Witness for `C9_theorem`: a freshly constructed, unattached
default-options circle, `setRadius(80.4)` and `setCenter((7, 8))`, then
attach to map `1` at zoom `5`. -/
theorem C9_theorem_witness :
    (setRadius (construct (0, 0) 50 defaultOptions) (402/5)).2 = [] ∧
    (setRadius (construct (0, 0) 50 defaultOptions) (402/5)).1.currentRadius =
      (construct (0, 0) 50 defaultOptions).currentRadius ∧
    (setRadius (construct (0, 0) 50 defaultOptions) (402/5)).1.editRadius =
      (construct (0, 0) 50 defaultOptions).editRadius ∧
    (setRadius (construct (0, 0) 50 defaultOptions) (402/5)).1.pendingRendered =
      [PendingMutation.setRadiusP (jsRound (402/5))] ∧
    (setCenter (construct (0, 0) 50 defaultOptions) (7, 8)).2 = [] ∧
    (setCenter (construct (0, 0) 50 defaultOptions) (7, 8)).1.currentCenterLngLat =
      (construct (0, 0) 50 defaultOptions).currentCenterLngLat ∧
    (setCenter (construct (0, 0) 50 defaultOptions) (7, 8)).1.pendingRendered =
      [PendingMutation.setCenterP (7, 8)] ∧
    (attachComplete (setRadius (construct (0, 0) 50 defaultOptions) (402/5)).1 1 5).1.currentRadius =
      clampRadius (construct (0, 0) 50 defaultOptions).options ((jsRound (402/5) : ℤ) : ℚ) ∧
    (attachComplete (setRadius (construct (0, 0) 50 defaultOptions) (402/5)).1 1 5).1.pendingRendered = [] ∧
    (attachComplete (attachComplete (setRadius (construct (0, 0) 50 defaultOptions) (402/5)).1 1 5).1 1 5).1.currentRadius =
      (attachComplete (setRadius (construct (0, 0) 50 defaultOptions) (402/5)).1 1 5).1.currentRadius ∧
    (attachComplete (setCenter (construct (0, 0) 50 defaultOptions) (7, 8)).1 1 5).1.currentCenterLngLat = (7, 8) ∧
    (attachComplete (setCenter (construct (0, 0) 50 defaultOptions) (7, 8)).1 1 5).1.pendingRendered = [] ∧
    (attachComplete (attachComplete (setCenter (construct (0, 0) 50 defaultOptions) (7, 8)).1 1 5).1 1 5).1.currentCenterLngLat =
      (attachComplete (setCenter (construct (0, 0) 50 defaultOptions) (7, 8)).1 1 5).1.currentCenterLngLat :=
  C9_theorem (construct (0, 0) 50 defaultOptions) (402/5) (7, 8) 1 5
    (by simp [construct]) (by simp [construct]) (by simp [construct]) (by simp [construct])

/-! ## Claim C10 -/

/-- C10: when the rounded requested radius falls strictly outside
`[minRadius, maxRadius]`, `setRadius` on an attached circle (outside a
radius-drag) sets the committed radius to the clamped bound yet emits no
`radiuschanged` event, because the emission condition requires the
post-clamp radius to equal the requested value. -/
theorem C10_theorem (st : CircleState) (r : ℚ)
    (hmap : st.attachedMap.isSome = true) (hrd : st.radiusDragActive = false)
    (hb : st.options.minRadius ≤ st.options.maxRadius)
    (hout : ((jsRound r : ℤ) : ℚ) < st.options.minRadius ∨
      st.options.maxRadius < ((jsRound r : ℤ) : ℚ)) :
    (setRadius st r).2 = [] ∧
    (setRadius st r).1.currentRadius = clampRadius st.options ((jsRound r : ℤ) : ℚ) := by
  have hclamp : clampRadius st.options ((jsRound r : ℤ) : ℚ) ≠ ((jsRound r : ℤ) : ℚ) := by
    rcases hout with hlt | hgt
    · have hge : st.options.minRadius ≤ clampRadius st.options ((jsRound r : ℤ) : ℚ) :=
        min_le_clampRadius st.options ((jsRound r : ℤ) : ℚ) hb
      exact fun he => absurd (he ▸ hge) (not_le.mpr hlt)
    · have hle : clampRadius st.options ((jsRound r : ℤ) : ℚ) ≤ st.options.maxRadius :=
        clampRadius_le_max st.options ((jsRound r : ℤ) : ℚ)
      exact fun he => absurd (he ▸ hle) (not_le.mpr hgt)
  have hncond : ¬((setRadiusProp st ((jsRound r : ℤ) : ℚ)).lastRadius ≠ ((jsRound r : ℤ) : ℚ) ∧
      (setRadiusProp st ((jsRound r : ℤ) : ℚ)).activeRadius = ((jsRound r : ℤ) : ℚ)) := by
    intro hcond
    exact hclamp (by simpa using hcond.2)
  unfold setRadius
  dsimp only
  rw [if_pos hmap]
  unfold applyUpdateRadius
  dsimp only
  rw [if_neg hncond]
  refine ⟨rfl, ?_⟩
  rw [setRadiusProp_currentRadius, hrd]
  simp

/-- Witness for `C10_theorem`: the attached `baseCircle`
(`maxRadius = 1.1e6`), `setRadius(2000000)` — clamped to `1100000`, no
event. -/
theorem C10_theorem_witness :
    (setRadius baseCircle 2000000).2 = [] ∧
    (setRadius baseCircle 2000000).1.currentRadius =
      clampRadius baseCircle.options ((jsRound 2000000 : ℤ) : ℚ) :=
  C10_theorem baseCircle 2000000
    (by rw [baseCircle_eval]; rfl)
    (by rw [baseCircle_eval])
    (by rw [baseCircle_eval]; norm_num [defaultOptions])
    (by rw [baseCircle_eval]; right; norm_num [defaultOptions, jsRound])

end MapboxGlCircle
